import Mathlib

/-! SpinnakerCamera driver: acquisition state machine and frame decoding.

A shallow embedding of `spinnaker_camera_driver/src/SpinnakerCamera.cpp`.

* The Spinnaker SDK is an external collaborator.  Every SDK call the driver
  makes is answered by an explicit environment record (whether the call
  throws `Spinnaker::Exception`, and what it returns), and is appended to a
  ghost `trace` carried in the driver state, so that "which device calls were
  issued, and in which order" is a property of the state.
* C++ exceptions are modelled by returning the state reached when the
  exception leaves the method together with `some error`.
* Machine integers are `Nat` with explicit `% 2 ^ 32` where the source
  narrows a value.
-/

namespace SpinnakerCamera

/-! ## Pixel encodings (`sensor_msgs::image_encodings`) -/

namespace image_encodings

def MONO8 : String := "mono8"
def MONO16 : String := "mono16"
def RGB8 : String := "rgb8"
def BAYER_RGGB8 : String := "bayer_rggb8"
def BAYER_BGGR8 : String := "bayer_bggr8"
def BAYER_GBRG8 : String := "bayer_gbrg8"
def BAYER_GRBG8 : String := "bayer_grbg8"
def BAYER_RGGB16 : String := "bayer_rggb16"
def BAYER_BGGR16 : String := "bayer_bggr16"
def BAYER_GBRG16 : String := "bayer_gbrg16"
def BAYER_GRBG16 : String := "bayer_grbg16"

end image_encodings

/-! ## Errors -/

/-- Where device selection failed in `connect` (three distinct messages). -/
inductive NotFoundSite where
  /-- `GetBySerial` threw: "Could not find camera with serial number". -/
  | bySerial
  /-- `GetByIndex(0)` threw: "Failed to get first connected camera". -/
  | firstCamera
  /-- Null or invalid pointer: "Failed to obtain camera reference". -/
  | noReference
  deriving DecidableEq, Repr

/-- Which part of `connect` failed after a camera pointer was obtained. -/
inductive ConnectStage where
  /-- SDK exception in the transport-layer block: "Failed to determine device info". -/
  | deviceInfo
  /-- The `DeviceID` node is not readable: "Unable to determine serial number". -/
  | serialUnknown
  /-- SDK exception in the `Init` block: "Failed to connect to camera". -/
  | init
  /-- A `std::runtime_error` in the `Init` block: "Failed to configure chunk data". -/
  | chunkData
  deriving DecidableEq, Repr

/-- The exceptions that leave the public methods of the driver, named after
the error taxonomy of the specification. -/
inductive DriverError where
  | DeviceNotFound (site : NotFoundSite)
  | ConnectionFailed (stage : ConnectStage)
  | DisconnectionFailed
  | AcquisitionStartFailed
  | AcquisitionStopFailed
  /-- The exception "Not connected to the camera." of `grabImage`. -/
  | NotConnected
  /-- The `CameraNotRunningException` of `grabImage`. -/
  | NotStreaming
  | IncompleteFrame
  | FrameRetrievalFailed
  /-- Messages "Bayer format not recognized for 16-bit format." (`bits16 = true`)
  and "... for 8-bit format." (`bits16 = false`). -/
  | UnrecognizedBayerFormat (bits16 : Bool)
  /-- The device model's `setNewConfiguration` threw. -/
  | ConfigurationFailed
  /-- The `std::invalid_argument` of `stoi` on the first line of the parameter file. -/
  | ParamFileInvalid
  /-- Dereference of a null `camera_` in `setNewConfiguration`. -/
  | NullDeviceModel
  deriving DecidableEq, Repr

/-! ## The pixel-format decision of `grabImage` (lines 402-480) -/

/-- The encoding chosen from the `PixelColorFilter` entry name and the bit
depth.  The test `GetCurrentEntry() != GetEntryByName("None")` compares the
current entry with the entry called "None", i.e. it holds exactly when the
current entry's name `color_filter_str` is not "None". -/
def imageEncoding (color_filter_str : String) (bitsPerPixel : Nat) : Except DriverError String :=
  if color_filter_str ≠ "None" then
    if bitsPerPixel = 16 then
      if color_filter_str = "BayerRG" then .ok image_encodings.BAYER_RGGB16
      else if color_filter_str = "BayerGR" then .ok image_encodings.BAYER_GRBG16
      else if color_filter_str = "BayerGB" then .ok image_encodings.BAYER_GBRG16
      else if color_filter_str = "BayerBG" then .ok image_encodings.BAYER_BGGR16
      else .error (.UnrecognizedBayerFormat true)
    else
      if color_filter_str = "BayerRG" then .ok image_encodings.BAYER_RGGB8
      else if color_filter_str = "BayerGR" then .ok image_encodings.BAYER_GRBG8
      else if color_filter_str = "BayerGB" then .ok image_encodings.BAYER_GBRG8
      else if color_filter_str = "BayerBG" then .ok image_encodings.BAYER_BGGR8
      else .error (.UnrecognizedBayerFormat false)
  else
    if bitsPerPixel = 16 then .ok image_encodings.MONO16
    else if bitsPerPixel = 24 then .ok image_encodings.RGB8
    else .ok image_encodings.MONO8

/-! ## The time stamp of `grabImage` (lines 393-395) -/

/-- The value stored by `image->header.stamp.nsec = image_ptr->GetTimeStamp();`:
the 64-bit nanosecond counter narrowed to the 32-bit field `nsec`. -/
def stampNsec (timeStamp : Nat) : Nat := timeStamp % 2 ^ 32

/-! ## Text helpers used by `connect` -/

/-- The C `isspace` test in the "C" locale. -/
def isSpace (c : Char) : Bool :=
  c = ' ' || c = '\t' || c = '\n' || c = '\r' || c.toNat = 11 || c.toNat = 12

/-- Value of a leading run of decimal digits and whether at least one digit was read. -/
def readDigits : List Char → Nat → Bool → Nat × Bool
  | [], acc, seen => (acc, seen)
  | c :: cs, acc, seen =>
    if c.isDigit then readDigits cs (acc * 10 + (c.toNat - '0'.toNat)) true else (acc, seen)

/-- The conversion of `strtol(_, _, 10)`: skip leading white space, an optional
sign, then decimal digits; `none` when no digit was converted.  The value is the
number read, before the range check of `long` (made in `atoi`; the tokens given
to `stoi` have at most four characters). -/
def strtol : List Char → Option Int
  | [] => none
  | c :: cs =>
    if isSpace c then strtol cs
    else if c = '-' then
      match readDigits cs 0 false with
      | (v, true) => some (-(v : Int))
      | (_, false) => none
    else if c = '+' then
      match readDigits cs 0 false with
      | (v, true) => some (v : Int)
      | (_, false) => none
    else
      match readDigits (c :: cs) 0 false with
      | (v, true) => some (v : Int)
      | (_, false) => none

/-- The result of `std::stoi`: `none` stands for `std::invalid_argument`. -/
def stoi (token : String) : Option Int := strtol token.toList

/-- The largest value of the C type `long` (64 bits). -/
def LONG_MAX : Int := 2 ^ 63 - 1

/-- The smallest value of the C type `long` (64 bits). -/
def LONG_MIN : Int := -(2 ^ 63)

/-- The result of `atoi`, which the C library computes as `(int) strtol(str, NULL, 10)`:
0 when nothing can be converted; a value outside the range of `long` saturates
at `LONG_MAX` or `LONG_MIN`; the `long` is then narrowed to the 32-bit `int`. -/
def atoi (str : String) : Int :=
  let v := (strtol str.toList).getD 0
  let l := if v > LONG_MAX then LONG_MAX else if v < LONG_MIN then LONG_MIN else v
  (l + 2 ^ 31) % 2 ^ 32 - 2 ^ 31

/-- The loop `for (i = 0; i < token.length(); i++) if (token[i] == ' ') token.erase(i, 1);`:
after an erase the next character moves to position `i` and is stepped over. -/
def eraseSpaces : List Char → List Char
  | [] => []
  | c :: rest =>
    if c = ' ' then
      match rest with
      | [] => []
      | d :: rest2 => d :: eraseSpaces rest2
    else c :: eraseSpaces rest

/-- The value of `line.find(":") + 1`: one past the first colon, and 0 when
there is none (`npos + 1` wraps to 0). -/
def findColonPlusOne (line : List Char) : Nat :=
  match line.indexOf? ':' with
  | some i => i + 1
  | none => 0

/-- The token `line.substr(pos, len)` with its spaces erased. -/
def paramToken (line : String) (len : Nat) : String :=
  String.mk (eraseSpaces ((line.toList.drop (findColonPlusOne line.toList)).take len))

/-- The test `str.find(pat) != std::string::npos`. -/
def containsSubstring (str pat : String) : Bool :=
  str.toList.tails.any (fun t => pat.toList.isPrefixOf t)

/-! ## Driver state -/

/-- A camera of the SDK camera list, as `connect` sees it: the serial number
`GetBySerial` matches on and the answer of `IsValid()`. -/
structure CameraRef where
  serial : String
  isValid : Bool
  deriving DecidableEq, Repr

/-- The two device-model classes `connect` can instantiate. -/
inductive CameraVariant where
  /-- The class `Camera` (generic variant). -/
  | Camera
  /-- The class `Cm3` (alternate variant). -/
  | Cm3
  deriving DecidableEq, Repr

/-- The device model object held in `camera_`. -/
structure CameraModel where
  variant : CameraVariant
  height_max_ : Int
  width_max_ : Int
  deriving DecidableEq, Repr

/-- Calls into the SDK (and into the device model, which calls the SDK). -/
inductive SdkCall where
  | GetBySerial (serial : String)
  | GetByIndex (index : Nat)
  | IsValid
  /-- Read of a node of the transport-layer device node map. -/
  | ReadTLNode (name : String)
  | Init
  /-- Read of a node of the GenICam node map `node_map_`. -/
  | ReadNode (name : String)
  /-- Construction of the device model (`Camera::init` reads and writes nodes). -/
  | NewCameraModel (variant : CameraVariant)
  | DeInit
  | RemoveBySerial (serial : String)
  | GetCameras
  | Append
  | BeginAcquisition
  | EndAcquisition
  | GetNextImage (timeout : Nat)
  /-- The call `camera_->setNewConfiguration(config, level)`. -/
  | ApplyConfiguration (level : Nat)
  deriving DecidableEq, Repr

/-- Ghost events: SDK calls and writes to `captureRunning_`, in program order. -/
inductive Event where
  | call (c : SdkCall)
  | setCaptureRunning (value : Bool)
  deriving DecidableEq, Repr

/-- The members of `SpinnakerCamera` and the file-scope variables of
`SpinnakerCamera.cpp` that its methods read or write.

* `pCam_ = none` is the null `CameraPtr`; "a handle is held" is `pCam_.isSome`.
* `captureRunning_` is the stream state: `true` is Running, `false` is Stopped.
* `node_map_` records whether `node_map_` has been assigned.
* `paramFileOpen` records whether the file-scope stream `param_txt_file` is
  still open (it is left open when `stoi` throws).
* `trace` is ghost state. -/
structure State where
  serial_ : Nat
  pCam_ : Option CameraRef
  camera_ : Option CameraModel
  node_map_ : Bool
  captureRunning_ : Bool
  timeout_ : Nat
  enableFrameChecking : Bool
  paramFileOpen : Bool
  trace : List Event
  deriving DecidableEq, Repr

/-- The state after the constructor (lines 63-74) for an arbitrary initial
content `timeout0` of the member `timeout_`, which the constructor does not set;
`enableFrameChecking` has its file-scope initialiser `false`. -/
def State.init (timeout0 : Nat) : State where
  serial_ := 0
  pCam_ := none
  camera_ := none
  node_map_ := false
  captureRunning_ := false
  timeout_ := timeout0
  enableFrameChecking := false
  paramFileOpen := false
  trace := []

/-- Record an SDK call in the trace. -/
def emit (c : SdkCall) (s : State) : State :=
  { s with trace := s.trace ++ [Event.call c] }

/-- The assignment `captureRunning_ = value`, recorded in the trace. -/
def setCaptureRunning (value : Bool) (s : State) : State :=
  { s with captureRunning_ := value, trace := s.trace ++ [Event.setCaptureRunning value] }

/-! ## `start` and `stop` (lines 336-369) -/

/-- The method `start()`; `beginThrows` tells whether `BeginAcquisition` throws. -/
def start (beginThrows : Bool) (s : State) : State × Option DriverError :=
  if s.pCam_.isSome && !s.captureRunning_ then
    let s1 := emit .BeginAcquisition s
    if beginThrows then (s1, some .AcquisitionStartFailed)
    else (setCaptureRunning true s1, none)
  else (s, none)

/-- The method `stop()`; `endThrows` tells whether `EndAcquisition` throws. -/
def stop (endThrows : Bool) (s : State) : State × Option DriverError :=
  if s.pCam_.isSome && s.captureRunning_ then
    let s1 := emit .EndAcquisition (setCaptureRunning false s)
    if endThrows then (s1, some .AcquisitionStopFailed)
    else (s1, none)
  else (s, none)

/-! ## `disconnect` (lines 313-334) -/

/-- Which SDK calls of `disconnect` throw. -/
structure DisconnectEnv where
  deInitThrows : Bool
  removeThrows : Bool
  getCamerasThrows : Bool
  appendThrows : Bool
  deriving DecidableEq, Repr

/-- The tail of `disconnect`: refresh of the camera list (lines 326-327). -/
def disconnectRefresh (env : DisconnectEnv) (s : State) : State × Option DriverError :=
  let s1 := emit .GetCameras s
  if env.getCamerasThrows then (s1, some .DisconnectionFailed)
  else
    let s2 := emit .Append s1
    if env.appendThrows then (s2, some .DisconnectionFailed)
    else (s2, none)

/-- The method `disconnect()`. -/
def disconnect (env : DisconnectEnv) (s : State) : State × Option DriverError :=
  let s1 := setCaptureRunning false s
  if s1.pCam_.isSome then
    let s2 := emit .DeInit s1
    if env.deInitThrows then (s2, some .DisconnectionFailed)
    else
      let s3 := emit (.RemoveBySerial (toString s2.serial_)) { s2 with pCam_ := none }
      if env.removeThrows then (s3, some .DisconnectionFailed)
      else disconnectRefresh env s3
  else disconnectRefresh env s1

/-- The call sequence `stop(); disconnect();`: an exception of `stop` leaves
the sequence before `disconnect` is called. -/
def stopThenDisconnect (endThrows : Bool) (env : DisconnectEnv) (s : State) :
    State × Option DriverError :=
  match stop endThrows s with
  | (s1, some e) => (s1, some e)
  | (s1, none) => disconnect env s1

/-! ## `connect` (lines 143-311) -/

/-- Outcome of reading a string-valued node: the SDK throws, the node is not
available or not readable, or it has a value. -/
inductive NodeRead where
  | throws
  | unreadable
  | value (v : String)
  deriving DecidableEq, Repr

/-- Outcome of constructing the device model (`new Camera(node_map_)` or
`new Cm3(node_map_)`, whose `init` reads `HeightMax` and `WidthMax`). -/
inductive CtorResult where
  /-- An SDK exception leaves the constructor. -/
  | sdkError
  /-- A `std::runtime_error` leaves the constructor ("Unable to read HeightMax"). -/
  | runtimeError
  | ok (height_max width_max : Int)
  deriving DecidableEq, Repr

/-- What the outside world answers during one call of `connect`. -/
structure ConnectEnv where
  /-- Lines of `params/flir_camera_params.txt`, or `none` when it cannot be opened. -/
  paramFile : Option (List String)
  /-- Content of `camList_`, in enumeration order. -/
  camList : List CameraRef
  /-- Whether `GetBySerial` / `GetByIndex` throws. -/
  lookupThrows : Bool
  /-- The transport-layer node `DeviceID`. -/
  deviceID : NodeRead
  /-- The transport-layer node `DeviceType`. -/
  deviceType : NodeRead
  /-- The transport-layer node `DeviceCurrentSpeed`. -/
  deviceSpeed : NodeRead
  /-- Whether `Init()` (or `GetNodeMap()`) throws. -/
  initThrows : Bool
  /-- The node `DeviceModelName`; `none` when reading it throws. -/
  modelName : Option String
  modelCtor : CtorResult
  deriving DecidableEq, Repr

/-- The parameter-file prologue of `connect` (lines 145-182): the first line
sets `enableFrameChecking`.  When the stream was left open by an earlier
exception, `open` fails, no line is read and `close` closes it. -/
def readParamFile (file : Option (List String)) (s : State) : State × Option DriverError :=
  if s.paramFileOpen then ({ s with paramFileOpen := false }, none)
  else
    match file with
    | none => (s, none)
    | some [] => (s, none)
    | some (line :: _) =>
      match stoi (paramToken line 4) with
      | none => ({ s with paramFileOpen := true }, some .ParamFileInvalid)
      | some v => ({ s with enableFrameChecking := decide (v ≠ 0) }, none)

/-- The device-model dispatch on the model name (lines 279-287). -/
def selectVariant (model_name_str : String) : CameraVariant :=
  if containsSubstring model_name_str "Blackfly S" then .Camera
  else if containsSubstring model_name_str "Chameleon3" then .Cm3
  else .Camera

/-- The value `serial_ = atoi(...)` stores in the 32-bit unsigned member
`serial_`: the `int` returned by `atoi`, converted modulo 2^32. -/
def atoiSerial (deviceID : String) : Nat := (atoi deviceID % 2 ^ 32).toNat

/-- The `Init` block of `connect` (lines 266-301). -/
def connectInit (env : ConnectEnv) (s : State) : State × Option DriverError :=
  let s1 := emit .Init s
  if env.initThrows then (s1, some (.ConnectionFailed .init))
  else
    let s2 := emit (.ReadNode "DeviceModelName") { s1 with node_map_ := true }
    match env.modelName with
    | none => (s2, some (.ConnectionFailed .init))
    | some model_name_str =>
      let s3 := emit (.NewCameraModel (selectVariant model_name_str)) s2
      match env.modelCtor with
      | .sdkError => (s3, some (.ConnectionFailed .init))
      | .runtimeError => (s3, some (.ConnectionFailed .chunkData))
      | .ok h w => ({ s3 with camera_ := some ⟨selectVariant model_name_str, h, w⟩ }, none)

/-- The device-type check of `connect` (lines 240-258); it only logs. -/
def connectDeviceType (env : ConnectEnv) (s : State) : State × Option DriverError :=
  let s1 := emit (.ReadTLNode "DeviceType") s
  match env.deviceType with
  | .throws => (s1, some (.ConnectionFailed .deviceInfo))
  | .unreadable => connectInit env s1
  | .value v =>
    if v = "U3V" then
      let s2 := emit (.ReadTLNode "DeviceCurrentSpeed") s1
      match env.deviceSpeed with
      | .throws => (s2, some (.ConnectionFailed .deviceInfo))
      | _ => connectInit env s2
    else connectInit env s1

/-- The transport-layer block of `connect` (lines 220-264). -/
def connectDeviceInfo (env : ConnectEnv) (s : State) : State × Option DriverError :=
  if s.serial_ = 0 then
    let s1 := emit (.ReadTLNode "DeviceID") s
    match env.deviceID with
    | .throws => (s1, some (.ConnectionFailed .deviceInfo))
    | .unreadable => (s1, some (.ConnectionFailed .serialUnknown))
    | .value v => connectDeviceType env { s1 with serial_ := atoiSerial v }
  else connectDeviceType env s

/-- The device selection of `connect` (lines 187-218), entered with `pCam_` null. -/
def connectLookup (env : ConnectEnv) (s : State) : State × Option DriverError :=
  if s.serial_ ≠ 0 then
    let s1 := emit (.GetBySerial (toString s.serial_)) s
    if env.lookupThrows then (s1, some (.DeviceNotFound .bySerial))
    else
      match env.camList.find? (fun c => c.serial = toString s.serial_) with
      | none => (s1, some (.DeviceNotFound .noReference))
      | some cam =>
        let s2 := emit .IsValid { s1 with pCam_ := some cam }
        if cam.isValid then connectDeviceInfo env s2
        else (s2, some (.DeviceNotFound .noReference))
  else
    let s1 := emit (.GetByIndex 0) s
    if env.lookupThrows then (s1, some (.DeviceNotFound .firstCamera))
    else
      match env.camList.head? with
      | none => (s1, some (.DeviceNotFound .noReference))
      | some cam =>
        let s2 := emit .IsValid { s1 with pCam_ := some cam }
        if cam.isValid then connectDeviceInfo env s2
        else (s2, some (.DeviceNotFound .noReference))

/-- The method `connect()`. -/
def connect (env : ConnectEnv) (s : State) : State × Option DriverError :=
  match readParamFile env.paramFile s with
  | (s1, some e) => (s1, some e)
  | (s1, none) =>
    if s1.pCam_.isSome then (s1, none)
    else connectLookup env s1

/-! ## `grabImage` (lines 371-554) -/

/-- The raw frame returned by `GetNextImage`, as far as `grabImage` reads it. -/
structure RawFrame where
  /-- Answer of `IsIncomplete()`. -/
  incomplete : Bool
  /-- Answer of `GetTimeStamp()`, a 64-bit nanosecond counter. -/
  timeStamp : Nat
  bitsPerPixel : Nat
  width : Nat
  height : Nat
  stride : Nat
  /-- Bytes at `GetData()`. -/
  data : List Nat
  deriving DecidableEq, Repr

/-- What the device answers during one call of `grabImage`. -/
structure GrabEnv where
  /-- The frame `GetNextImage(timeout_)` returns; `none` when it throws. -/
  nextImage : Option RawFrame
  /-- Name of the current entry of the node `PixelColorFilter`; `none` when
  reading it throws. -/
  colorFilter : Option String
  deriving DecidableEq, Repr

/-- The fields of `sensor_msgs::Image` that `grabImage` writes.  The field
`header.stamp.sec` is computed in double precision (`GetTimeStamp() * 1e-9`)
and is not part of this model. -/
structure Image where
  frame_id : String
  stamp_nsec : Nat
  encoding : String
  height : Nat
  width : Nat
  step : Nat
  is_bigendian : Nat
  data : List Nat
  deriving DecidableEq, Repr

/-- The helper `sensor_msgs::fillImage`, with 32-bit `rows`, `cols` and `step`. -/
def fillImage (image : Image) (encoding_arg : String) (rows_arg cols_arg step_arg : Nat)
    (data_arg : List Nat) : Image :=
  { image with
    encoding := encoding_arg
    height := rows_arg % 2 ^ 32
    width := cols_arg % 2 ^ 32
    step := step_arg % 2 ^ 32
    data := data_arg.take (((step_arg % 2 ^ 32) * (rows_arg % 2 ^ 32)) % 2 ^ 32)
    is_bigendian := 0 }

/-- The method `grabImage(image, frame_id)`.  The caller's `image` is updated
in place, so the image as left behind is returned also when the call fails. -/
def grabImage (env : GrabEnv) (frame_id : String) (image : Image) (s : State) :
    State × Image × Option DriverError :=
  if s.pCam_.isSome && s.captureRunning_ then
    let s1 := emit (.GetNextImage s.timeout_) s
    match env.nextImage with
    | none => (s1, image, some .FrameRetrievalFailed)
    | some image_ptr =>
      if image_ptr.incomplete && s.enableFrameChecking then (s1, image, some .IncompleteFrame)
      else
        let image1 := { image with stamp_nsec := stampNsec image_ptr.timeStamp }
        let s2 := emit (.ReadNode "PixelColorFilter") s1
        match env.colorFilter with
        | none => (s2, image1, some .FrameRetrievalFailed)
        | some color_filter_str =>
          match imageEncoding color_filter_str image_ptr.bitsPerPixel with
          | .error e => (s2, image1, some e)
          | .ok enc =>
            let image2 := fillImage image1 enc image_ptr.height image_ptr.width
              image_ptr.stride image_ptr.data
            (s2, { image2 with frame_id := frame_id }, none)
  else if s.pCam_.isSome then (s, image, some .NotStreaming)
  else (s, image, some .NotConnected)

/-! ## `setNewConfiguration`, `setTimeout`, `setDesiredCamera` -/

/-- What the outside world answers during one call of `setNewConfiguration`. -/
structure ConfigEnv where
  connectEnv : ConnectEnv
  /-- Whether `BeginAcquisition` throws in the first `start()`. -/
  begin1Throws : Bool
  endThrows : Bool
  /-- Whether `camera_->setNewConfiguration(config, level)` throws. -/
  applyThrows : Bool
  /-- Whether `BeginAcquisition` throws in the final `start()`. -/
  begin2Throws : Bool
  deriving DecidableEq, Repr

/-- The call `camera_->setNewConfiguration(config, level)` seen from the driver. -/
def applyConfiguration (applyThrows : Bool) (level : Nat) (s : State) :
    State × Option DriverError :=
  match s.camera_ with
  | none => (s, some .NullDeviceModel)
  | some _ =>
    let s1 := emit (.ApplyConfiguration level) s
    if applyThrows then (s1, some .ConfigurationFailed) else (s1, none)

/-- The body of `setNewConfiguration` after the connection check (lines 93-106).
The constant `LEVEL_RECONFIGURE_STOP` is declared in a header and is a parameter here. -/
def reconfigure (LEVEL_RECONFIGURE_STOP : Nat) (env : ConfigEnv) (level : Nat) (s : State) :
    State × Option DriverError :=
  if level ≥ LEVEL_RECONFIGURE_STOP then
    let capture_was_running := s.captureRunning_
    match start env.begin1Throws s with
    | (s1, some e) => (s1, some e)
    | (s1, none) =>
      match stop env.endThrows s1 with
      | (s2, some e) => (s2, some e)
      | (s2, none) =>
        match applyConfiguration env.applyThrows level s2 with
        | (s3, some e) => (s3, some e)
        | (s3, none) =>
          if capture_was_running then start env.begin2Throws s3 else (s3, none)
  else applyConfiguration env.applyThrows level s

/-- The method `setNewConfiguration(config, level)` (lines 82-107). -/
def setNewConfiguration (LEVEL_RECONFIGURE_STOP : Nat) (env : ConfigEnv) (level : Nat)
    (s : State) : State × Option DriverError :=
  if s.pCam_.isSome then reconfigure LEVEL_RECONFIGURE_STOP env level s
  else
    match connect env.connectEnv s with
    | (s1, some e) => (s1, some e)
    | (s1, none) => reconfigure LEVEL_RECONFIGURE_STOP env level s1

/-- The method `setTimeout`; `millis` is the value `round(timeout * 1000)` it stores. -/
def setTimeout (millis : Nat) (s : State) : State :=
  { s with timeout_ := millis % 2 ^ 64 }

/-- The method `setDesiredCamera(id)`. -/
def setDesiredCamera (id : Nat) (s : State) : State :=
  { s with serial_ := id % 2 ^ 32 }

/-! ## Reachable states -/

/-- One call of a public method, with the answers of the outside world. -/
inductive Op where
  | connect (env : ConnectEnv)
  | disconnect (env : DisconnectEnv)
  | start (beginThrows : Bool)
  | stop (endThrows : Bool)
  | grabImage (env : GrabEnv) (frame_id : String) (image : Image)
  | setNewConfiguration (LEVEL_RECONFIGURE_STOP : Nat) (env : ConfigEnv) (level : Nat)
  | setTimeout (millis : Nat)
  | setDesiredCamera (id : Nat)

/-- The driver state after one call, whether the call failed or not. -/
def Op.run : Op → State → State
  | .connect env, s => (SpinnakerCamera.connect env s).1
  | .disconnect env, s => (SpinnakerCamera.disconnect env s).1
  | .start b, s => (SpinnakerCamera.start b s).1
  | .stop b, s => (SpinnakerCamera.stop b s).1
  | .grabImage env fid img, s => (SpinnakerCamera.grabImage env fid img s).1
  | .setNewConfiguration lvl env level, s =>
    (SpinnakerCamera.setNewConfiguration lvl env level s).1
  | .setTimeout t, s => SpinnakerCamera.setTimeout t s
  | .setDesiredCamera id, s => SpinnakerCamera.setDesiredCamera id s

/-- States reachable from the constructed driver by calls of public methods. -/
inductive Reachable : State → Prop where
  | init (timeout0 : Nat) : Reachable (State.init timeout0)
  | step (op : Op) (s : State) : Reachable s → Reachable (op.run s)

/-! ## Example inputs -/

/-- A connected driver that is streaming, with frame checking enabled. -/
def exampleRunning : State where
  serial_ := 17
  pCam_ := some ⟨"17", true⟩
  camera_ := some ⟨.Camera, 1080, 1920⟩
  node_map_ := true
  captureRunning_ := true
  timeout_ := 1000
  enableFrameChecking := true
  paramFileOpen := false
  trace := []

/-- A connected driver that is not streaming. -/
def exampleStopped : State := { exampleRunning with captureRunning_ := false }

/-- A complete 4 x 2 frame with 8 bits per pixel, stamped one second after zero. -/
def exampleFrame : RawFrame where
  incomplete := false
  timeStamp := 1000000000
  bitsPerPixel := 8
  width := 4
  height := 2
  stride := 4
  data := [1, 2, 3, 4, 5, 6, 7, 8]

/-- A fresh image message. -/
def exampleImage : Image where
  frame_id := ""
  stamp_nsec := 0
  encoding := ""
  height := 0
  width := 0
  step := 0
  is_bigendian := 0
  data := []

/-- A system with one valid camera whose parameter file enables frame checking. -/
def exampleConnectEnv : ConnectEnv where
  paramFile := some ["check: 1"]
  camList := [⟨"17", true⟩]
  lookupThrows := false
  deviceID := .value "17"
  deviceType := .unreadable
  deviceSpeed := .unreadable
  initThrows := false
  modelName := some "Blackfly S BFS-U3-16S2C"
  modelCtor := .ok 1080 1920

/-! ## Issued events -/

/-- The events a call appended to the trace, given the state before and after. -/
def issued (before after : State) : List Event :=
  after.trace.drop before.trace.length

/-- The SDK calls among a list of events, in order. -/
def deviceCalls : List Event → List SdkCall
  | [] => []
  | .call c :: es => c :: deviceCalls es
  | .setCaptureRunning _ :: es => deviceCalls es

/-! ## `Camera::setImageControlFormats` (`camera.cpp`, lines 270-318) -/

/-- The fields of the generated `SpinnakerConfig` that `setImageControlFormats` reads. -/
structure SpinnakerConfig where
  image_format_x_binning : Int
  image_format_y_binning : Int
  image_format_x_decimation : Int
  image_format_y_decimation : Int
  image_format_roi_width : Int
  image_format_roi_height : Int
  image_format_x_offset : Int
  image_format_y_offset : Int
  deriving DecidableEq, Repr

/-- A value handed to `setProperty`. -/
inductive PropertyValue where
  | int (v : Int)
  | str (v : String)
  deriving DecidableEq, Repr

/-- One call `setProperty(node_map_, name, value)`. -/
structure PropertyWrite where
  name : String
  value : PropertyValue
  deriving DecidableEq, Repr

/-- Outcome of reading an integer node: the SDK throws, the node is not
available or not readable, or it has a value (as stored in the member it is
assigned to). -/
inductive IntRead where
  | throws
  | unreadable
  | value (v : Int)
  deriving DecidableEq, Repr

/-- How `setImageControlFormats` is left by an exception. -/
inductive CameraError where
  /-- A `Spinnaker::Exception` raised inside a property access. -/
  | sdk
  /-- The message "Unable to read HeightMax" or "Unable to read WidthMax". -/
  | unreadable (name : String)
  deriving DecidableEq, Repr

/-- What the node map answers during one call of `setImageControlFormats`.
The helper `setProperty` is declared in a header: here a call of it is
recorded, and `writeThrows` tells whether an exception leaves it. -/
structure NodeMapEnv where
  writeThrows : PropertyWrite → Bool
  heightMax : IntRead
  widthMax : IntRead

/-- A run of consecutive `setProperty` calls, stopped by the first one that
throws: the writes issued so far, and whether an exception was raised. -/
def writeAll (env : NodeMapEnv) : List PropertyWrite → List PropertyWrite →
    List PropertyWrite × Bool
  | [], done => (done, false)
  | w :: ws, done =>
    if env.writeThrows w then (done ++ [w], true) else writeAll env ws (done ++ [w])

namespace Camera

/-- The value written to `Width` (lines 299-302), and to `Height` (lines 303-306). -/
def roiSize (roi max_ : Int) : Int :=
  if roi ≤ 0 ∨ roi > max_ then max_ else roi

/-- The method `Camera::setImageControlFormats(config)`: the device model
afterwards, the `setProperty` calls issued in order, and the exception if any.
`setDefaultPixFormat` is the file-scope variable of that name. -/
def setImageControlFormats (env : NodeMapEnv) (setDefaultPixFormat : String)
    (config : SpinnakerConfig) (cam : CameraModel) :
    CameraModel × List PropertyWrite × Option CameraError :=
  match writeAll env
      [⟨"BinningHorizontal", .int config.image_format_x_binning⟩,
       ⟨"BinningVertical", .int config.image_format_y_binning⟩,
       ⟨"DecimationHorizontal", .int config.image_format_x_decimation⟩,
       ⟨"DecimationVertical", .int config.image_format_y_decimation⟩] [] with
  | (ws, true) => (cam, ws, some .sdk)
  | (ws, false) =>
    match env.heightMax with
    | .throws => (cam, ws, some .sdk)
    | .unreadable => (cam, ws, some (.unreadable "HeightMax"))
    | .value h =>
      let cam1 := { cam with height_max_ := h }
      match env.widthMax with
      | .throws => (cam1, ws, some .sdk)
      | .unreadable => (cam1, ws, some (.unreadable "WidthMax"))
      | .value w =>
        let cam2 := { cam1 with width_max_ := w }
        match writeAll env
            [⟨"OffsetX", .int 0⟩,
             ⟨"OffsetY", .int 0⟩,
             ⟨"Width", .int (roiSize config.image_format_roi_width cam2.width_max_)⟩,
             ⟨"Height", .int (roiSize config.image_format_roi_height cam2.height_max_)⟩,
             ⟨"OffsetX", .int config.image_format_x_offset⟩,
             ⟨"OffsetY", .int config.image_format_y_offset⟩,
             ⟨"PixelFormat", .str setDefaultPixFormat⟩] ws with
        | (ws2, true) => (cam2, ws2, some .sdk)
        | (ws2, false) => (cam2, ws2, none)

end Camera

/-! ## Further example inputs -/

/-- A teardown in which no SDK call fails. -/
def exampleDisconnectEnv : DisconnectEnv := ⟨false, false, false, false⟩

/-- A reconfiguration in which no SDK call fails. -/
def exampleConfigEnv : ConfigEnv where
  connectEnv := exampleConnectEnv
  begin1Throws := false
  endThrows := false
  applyThrows := false
  begin2Throws := false

/-- A configuration asking for a 640 x 2000 window at offset (8, 4). -/
def exampleConfig : SpinnakerConfig where
  image_format_x_binning := 1
  image_format_y_binning := 1
  image_format_x_decimation := 1
  image_format_y_decimation := 1
  image_format_roi_width := 640
  image_format_roi_height := 2000
  image_format_x_offset := 8
  image_format_y_offset := 4

/-- A node map that accepts every write and reports a 1920 x 1080 maximum. -/
def exampleNodeMapEnv : NodeMapEnv where
  writeThrows := fun _ => false
  heightMax := .value 1080
  widthMax := .value 1920

/-! ## Lemmas on `grabImage` -/

/-- The shape of `grabImage` on a streaming driver once a frame was retrieved,
accepted, and the colour filter was read. -/
theorem grabImage_decode (s : State) (frame_id : String) (image : Image) (raw : RawFrame)
    (tag : String) (hcam : s.pCam_.isSome = true) (hrun : s.captureRunning_ = true)
    (hacc : (raw.incomplete && s.enableFrameChecking) = false) :
    grabImage ⟨some raw, some tag⟩ frame_id image s =
      match imageEncoding tag raw.bitsPerPixel with
      | .error e =>
        (emit (.ReadNode "PixelColorFilter") (emit (.GetNextImage s.timeout_) s),
          { image with stamp_nsec := stampNsec raw.timeStamp }, some e)
      | .ok enc =>
        (emit (.ReadNode "PixelColorFilter") (emit (.GetNextImage s.timeout_) s),
          { fillImage { image with stamp_nsec := stampNsec raw.timeStamp } enc raw.height
              raw.width raw.stride raw.data with frame_id := frame_id }, none) := by
  simp only [grabImage, hcam, hrun, hacc, Bool.and_self, if_true]
  rfl

/-- The encoding decision never reports an incomplete frame. -/
theorem imageEncoding_ne_incomplete (tag : String) (bits : Nat) :
    imageEncoding tag bits ≠ .error .IncompleteFrame := by
  unfold imageEncoding
  repeat (first | split | simp)

/-! ## Frame decoder -/

/-- C1: for a frame whose colour-filter tag is "None", at every bit depth,
`grabImage` succeeds and chooses Mono16 at depth 16, RGB8 at depth 24 and Mono8
at every other depth. -/
theorem grabImage_encoding_no_bayer (s : State) (frame_id : String) (image : Image)
    (raw : RawFrame) (hcam : s.pCam_.isSome = true) (hrun : s.captureRunning_ = true)
    (hacc : (raw.incomplete && s.enableFrameChecking) = false) :
    imageEncoding "None" raw.bitsPerPixel
        = .ok (if raw.bitsPerPixel = 16 then image_encodings.MONO16
               else if raw.bitsPerPixel = 24 then image_encodings.RGB8
               else image_encodings.MONO8) ∧
      (grabImage ⟨some raw, some "None"⟩ frame_id image s).2.2 = none ∧
      (grabImage ⟨some raw, some "None"⟩ frame_id image s).2.1.encoding
        = (if raw.bitsPerPixel = 16 then image_encodings.MONO16
           else if raw.bitsPerPixel = 24 then image_encodings.RGB8
           else image_encodings.MONO8) := by
  have henc : imageEncoding "None" raw.bitsPerPixel
        = .ok (if raw.bitsPerPixel = 16 then image_encodings.MONO16
               else if raw.bitsPerPixel = 24 then image_encodings.RGB8
               else image_encodings.MONO8) := by
    unfold imageEncoding
    by_cases h16 : raw.bitsPerPixel = 16
    · simp [h16]
    · by_cases h24 : raw.bitsPerPixel = 24
      · simp [h24]
      · simp [h16, h24]
  refine ⟨henc, ?_, ?_⟩
  · rw [grabImage_decode s frame_id image raw "None" hcam hrun hacc, henc]
  · rw [grabImage_decode s frame_id image raw "None" hcam hrun hacc, henc]
    rfl

/-- Witness of C1: the example frame on the streaming example driver. -/
theorem grabImage_encoding_no_bayer_witness :
    imageEncoding "None" exampleFrame.bitsPerPixel
        = .ok (if exampleFrame.bitsPerPixel = 16 then image_encodings.MONO16
               else if exampleFrame.bitsPerPixel = 24 then image_encodings.RGB8
               else image_encodings.MONO8) ∧
      (grabImage ⟨some exampleFrame, some "None"⟩ "cam" exampleImage exampleRunning).2.2 = none ∧
      (grabImage ⟨some exampleFrame, some "None"⟩ "cam" exampleImage exampleRunning).2.1.encoding
        = (if exampleFrame.bitsPerPixel = 16 then image_encodings.MONO16
           else if exampleFrame.bitsPerPixel = 24 then image_encodings.RGB8
           else image_encodings.MONO8) :=
  grabImage_encoding_no_bayer exampleRunning "cam" exampleImage exampleFrame rfl rfl rfl

/-- The encoding decision on the four recognized bayer tags. -/
theorem imageEncoding_bayer (tag enc8 enc16 : String) (bits : Nat)
    (htag : (tag, enc8, enc16) ∈
      [("BayerRG", image_encodings.BAYER_RGGB8, image_encodings.BAYER_RGGB16),
       ("BayerGR", image_encodings.BAYER_GRBG8, image_encodings.BAYER_GRBG16),
       ("BayerGB", image_encodings.BAYER_GBRG8, image_encodings.BAYER_GBRG16),
       ("BayerBG", image_encodings.BAYER_BGGR8, image_encodings.BAYER_BGGR16)]) :
    imageEncoding tag bits = .ok (if bits = 16 then enc16 else enc8) := by
  simp only [List.mem_cons, Prod.mk.injEq, List.mem_singleton, List.not_mem_nil, or_false] at htag
  unfold imageEncoding
  rcases htag with ⟨rfl, rfl, rfl⟩ | ⟨rfl, rfl, rfl⟩ | ⟨rfl, rfl, rfl⟩ | ⟨rfl, rfl, rfl⟩ <;>
    by_cases h16 : bits = 16 <;> simp [h16]

/-- C2: for a frame with a recognized bayer tag (BayerRG, BayerGR, BayerGB,
BayerBG), `grabImage` succeeds and chooses the 16-bit bayer encoding of that tag
(RGGB, GRBG, GBRG, BGGR) at depth 16 and the 8-bit bayer encoding of that tag at
every other depth; the eight combinations of a tag with depth 8 or 16 give eight
distinct encodings. -/
theorem grabImage_encoding_bayer (s : State) (frame_id : String) (image : Image)
    (raw : RawFrame) (tag enc8 enc16 : String)
    (hcam : s.pCam_.isSome = true) (hrun : s.captureRunning_ = true)
    (hacc : (raw.incomplete && s.enableFrameChecking) = false)
    (htag : (tag, enc8, enc16) ∈
      [("BayerRG", image_encodings.BAYER_RGGB8, image_encodings.BAYER_RGGB16),
       ("BayerGR", image_encodings.BAYER_GRBG8, image_encodings.BAYER_GRBG16),
       ("BayerGB", image_encodings.BAYER_GBRG8, image_encodings.BAYER_GBRG16),
       ("BayerBG", image_encodings.BAYER_BGGR8, image_encodings.BAYER_BGGR16)]) :
    ((grabImage ⟨some raw, some tag⟩ frame_id image s).2.2 = none ∧
      (grabImage ⟨some raw, some tag⟩ frame_id image s).2.1.encoding
        = (if raw.bitsPerPixel = 16 then enc16 else enc8)) ∧
    ([imageEncoding "BayerRG" 8, imageEncoding "BayerGR" 8, imageEncoding "BayerGB" 8,
      imageEncoding "BayerBG" 8, imageEncoding "BayerRG" 16, imageEncoding "BayerGR" 16,
      imageEncoding "BayerGB" 16, imageEncoding "BayerBG" 16]
      = [.ok "bayer_rggb8", .ok "bayer_grbg8", .ok "bayer_gbrg8", .ok "bayer_bggr8",
         .ok "bayer_rggb16", .ok "bayer_grbg16", .ok "bayer_gbrg16", .ok "bayer_bggr16"] ∧
     ([imageEncoding "BayerRG" 8, imageEncoding "BayerGR" 8, imageEncoding "BayerGB" 8,
      imageEncoding "BayerBG" 8, imageEncoding "BayerRG" 16, imageEncoding "BayerGR" 16,
      imageEncoding "BayerGB" 16, imageEncoding "BayerBG" 16]).Nodup) := by
  have hall : [imageEncoding "BayerRG" 8, imageEncoding "BayerGR" 8, imageEncoding "BayerGB" 8,
      imageEncoding "BayerBG" 8, imageEncoding "BayerRG" 16, imageEncoding "BayerGR" 16,
      imageEncoding "BayerGB" 16, imageEncoding "BayerBG" 16]
      = [.ok "bayer_rggb8", .ok "bayer_grbg8", .ok "bayer_gbrg8", .ok "bayer_bggr8",
         .ok "bayer_rggb16", .ok "bayer_grbg16", .ok "bayer_gbrg16", .ok "bayer_bggr16"] := rfl
  refine ⟨⟨?_, ?_⟩, hall, ?_⟩
  · rw [grabImage_decode s frame_id image raw tag hcam hrun hacc,
      imageEncoding_bayer tag enc8 enc16 raw.bitsPerPixel htag]
  · rw [grabImage_decode s frame_id image raw tag hcam hrun hacc,
      imageEncoding_bayer tag enc8 enc16 raw.bitsPerPixel htag]
    rfl
  · rw [hall]
    simp

/-- Witness of C2: the example frame with tag BayerGB on the streaming example driver. -/
theorem grabImage_encoding_bayer_witness :
    (grabImage ⟨some exampleFrame, some "BayerGB"⟩ "cam" exampleImage exampleRunning).2.2 = none ∧
      (grabImage ⟨some exampleFrame, some "BayerGB"⟩ "cam" exampleImage exampleRunning).2.1.encoding
        = "bayer_gbrg8" :=
  (grabImage_encoding_bayer exampleRunning "cam" exampleImage exampleFrame "BayerGB"
    image_encodings.BAYER_GBRG8 image_encodings.BAYER_GBRG16 rfl rfl rfl (by decide)).1

/-- C3: for a frame whose colour-filter tag is neither "None" nor one of the
four recognized bayer tags, at every bit depth, `grabImage` fails with
UnrecognizedBayerFormat; no encoding is chosen and the encoding field of the
caller's image is left as it was. -/
theorem grabImage_unrecognized_bayer (s : State) (frame_id : String) (image : Image)
    (raw : RawFrame) (tag : String)
    (hcam : s.pCam_.isSome = true) (hrun : s.captureRunning_ = true)
    (hacc : (raw.incomplete && s.enableFrameChecking) = false)
    (hnone : tag ≠ "None")
    (htag : tag ∉ ["BayerRG", "BayerGR", "BayerGB", "BayerBG"]) :
    imageEncoding tag raw.bitsPerPixel
        = .error (.UnrecognizedBayerFormat (decide (raw.bitsPerPixel = 16))) ∧
      (grabImage ⟨some raw, some tag⟩ frame_id image s).2.2
        = some (.UnrecognizedBayerFormat (decide (raw.bitsPerPixel = 16))) ∧
      (grabImage ⟨some raw, some tag⟩ frame_id image s).2.1.encoding = image.encoding := by
  simp only [List.mem_cons, List.mem_singleton, List.not_mem_nil, or_false, not_or] at htag
  obtain ⟨h1, h2, h3, h4⟩ := htag
  have henc : imageEncoding tag raw.bitsPerPixel
      = .error (.UnrecognizedBayerFormat (decide (raw.bitsPerPixel = 16))) := by
    unfold imageEncoding
    by_cases h16 : raw.bitsPerPixel = 16 <;> simp [hnone, h1, h2, h3, h4, h16]
  refine ⟨henc, ?_, ?_⟩
  · rw [grabImage_decode s frame_id image raw tag hcam hrun hacc, henc]
  · rw [grabImage_decode s frame_id image raw tag hcam hrun hacc, henc]

/-- Witness of C3: the example frame with the tag "BayerXX". -/
theorem grabImage_unrecognized_bayer_witness :
    imageEncoding "BayerXX" exampleFrame.bitsPerPixel
        = .error (.UnrecognizedBayerFormat (decide (exampleFrame.bitsPerPixel = 16))) ∧
      (grabImage ⟨some exampleFrame, some "BayerXX"⟩ "cam" exampleImage exampleRunning).2.2
        = some (.UnrecognizedBayerFormat (decide (exampleFrame.bitsPerPixel = 16))) ∧
      (grabImage ⟨some exampleFrame, some "BayerXX"⟩ "cam" exampleImage exampleRunning).2.1.encoding
        = exampleImage.encoding :=
  grabImage_unrecognized_bayer exampleRunning "cam" exampleImage exampleFrame "BayerXX"
    rfl rfl rfl (by decide) (by decide)

/-- C4 (code evaluated at the failing input): for the raw time stamp
1000000000 ns the image returned by a successful `grabImage` carries
`nsec = 1000000000`, which is neither below 10^9 nor equal to
`1000000000 mod 10^9 = 0`; in general the stored value is the time stamp modulo
2^32, not modulo 10^9. -/
theorem grabImage_stamp_nsec_not_split :
    exampleFrame.timeStamp = 1000000000 ∧
      (grabImage ⟨some exampleFrame, some "None"⟩ "cam" exampleImage exampleRunning).2.2 = none ∧
      (grabImage ⟨some exampleFrame, some "None"⟩ "cam" exampleImage exampleRunning).2.1.stamp_nsec
        = 1000000000 ∧
      ¬ (grabImage ⟨some exampleFrame, some "None"⟩ "cam" exampleImage
          exampleRunning).2.1.stamp_nsec < 10 ^ 9 ∧
      (grabImage ⟨some exampleFrame, some "None"⟩ "cam" exampleImage exampleRunning).2.1.stamp_nsec
        ≠ exampleFrame.timeStamp % 10 ^ 9 ∧
      (∀ t : Nat, stampNsec t = t % 2 ^ 32) := by
  refine ⟨rfl, by decide, by decide, by decide, by decide, fun t => rfl⟩

/-! ## Acquisition controller -/

/-- C5: when the stream state is Stopped, `grabImage` fails and leaves the
whole driver state (handle, serial, stream state and the trace of device
calls) and the caller's image unchanged; the error is NotStreaming when a
handle is held and NotConnected when none is held. -/
theorem grabImage_stopped (env : GrabEnv) (frame_id : String) (image : Image) (s : State)
    (hstop : s.captureRunning_ = false) :
    grabImage env frame_id image s
      = (s, image, some (if s.pCam_.isSome then .NotStreaming else .NotConnected)) := by
  unfold grabImage
  cases hcam : s.pCam_.isSome <;> simp [hstop]

/-- Witness of C5: the stopped example driver. -/
theorem grabImage_stopped_witness :
    grabImage ⟨some exampleFrame, some "None"⟩ "cam" exampleImage exampleStopped
      = (exampleStopped, exampleImage,
          some (if exampleStopped.pCam_.isSome then .NotStreaming else .NotConnected)) :=
  grabImage_stopped ⟨some exampleFrame, some "None"⟩ "cam" exampleImage exampleStopped rfl

/-- C6: on a connected, streaming driver whose frame retrieval succeeds,
`grabImage` fails with IncompleteFrame exactly when the frame is incomplete and
frame checking is enabled; with checking disabled, an incomplete frame gives
the same result (state, image and outcome) as the same frame marked complete. -/
theorem grabImage_incomplete_iff (s : State) (frame_id : String) (image : Image)
    (raw : RawFrame) (colorFilter : Option String)
    (hcam : s.pCam_.isSome = true) (hrun : s.captureRunning_ = true) :
    ((grabImage ⟨some raw, colorFilter⟩ frame_id image s).2.2 = some .IncompleteFrame
        ↔ (raw.incomplete = true ∧ s.enableFrameChecking = true)) ∧
      (s.enableFrameChecking = false →
        grabImage ⟨some { raw with incomplete := true }, colorFilter⟩ frame_id image s
          = grabImage ⟨some { raw with incomplete := false }, colorFilter⟩ frame_id image s) := by
  constructor
  · cases hinc : raw.incomplete <;> cases hchk : s.enableFrameChecking <;>
      cases colorFilter with
      | none => simp [grabImage, hcam, hrun, hinc, hchk]
      | some tag =>
        have hne := imageEncoding_ne_incomplete tag raw.bitsPerPixel
        cases henc : imageEncoding tag raw.bitsPerPixel with
        | error e =>
          have he : e ≠ .IncompleteFrame := fun h => hne (by rw [henc, h])
          simp [grabImage, hcam, hrun, hinc, hchk, henc, he]
        | ok enc => simp [grabImage, hcam, hrun, hinc, hchk, henc]
  · intro hchk
    simp [grabImage, hcam, hrun, hchk]

/-- Witness of C6: the streaming example driver and the example frame, with
frame checking enabled for the first part and disabled for the second. -/
theorem grabImage_incomplete_iff_witness :
    ((grabImage ⟨some exampleFrame, some "None"⟩ "cam" exampleImage exampleRunning).2.2
          = some .IncompleteFrame
        ↔ (exampleFrame.incomplete = true ∧ exampleRunning.enableFrameChecking = true)) ∧
      grabImage ⟨some { exampleFrame with incomplete := true }, some "None"⟩ "cam"
          exampleImage { exampleRunning with enableFrameChecking := false }
        = grabImage ⟨some { exampleFrame with incomplete := false }, some "None"⟩ "cam"
          exampleImage { exampleRunning with enableFrameChecking := false } :=
  ⟨(grabImage_incomplete_iff exampleRunning "cam" exampleImage exampleFrame (some "None")
      rfl rfl).1,
   (grabImage_incomplete_iff { exampleRunning with enableFrameChecking := false } "cam"
      exampleImage exampleFrame (some "None") rfl rfl).2 rfl⟩

/-- C7: on a connected driver in Stopped on which begin-acquisition succeeds,
`start` succeeds and ends in Running; a second `start` (whatever the device
would answer) is a no-op giving the same state, and over both calls the trace
gains exactly one begin-acquisition call. -/
theorem start_idempotent (s : State) (beginThrows2 : Bool)
    (hcam : s.pCam_.isSome = true) (hstop : s.captureRunning_ = false) :
    (start false s).2 = none ∧
      (start false s).1.captureRunning_ = true ∧
      start beginThrows2 (start false s).1 = ((start false s).1, none) ∧
      (start beginThrows2 (start false s).1).1.trace
        = s.trace ++ [.call .BeginAcquisition, .setCaptureRunning true] ∧
      (start beginThrows2 (start false s).1).1.trace.count (.call .BeginAcquisition)
        = s.trace.count (.call .BeginAcquisition) + 1 := by
  have h1 : start false s = (setCaptureRunning true (emit .BeginAcquisition s), none) := by
    simp [start, hcam, hstop]
  have h2 : start beginThrows2 (setCaptureRunning true (emit .BeginAcquisition s))
      = (setCaptureRunning true (emit .BeginAcquisition s), none) := by
    simp [start, setCaptureRunning]
  rw [h1]
  refine ⟨rfl, rfl, h2, ?_, ?_⟩
  · rw [h2]
    simp [setCaptureRunning, emit]
  · rw [h2]
    simp [setCaptureRunning, emit, List.count_cons, List.count_append]

/-- Witness of C7: the stopped example driver. -/
theorem start_idempotent_witness :
    (start false exampleStopped).2 = none ∧
      (start false exampleStopped).1.captureRunning_ = true ∧
      start true (start false exampleStopped).1 = ((start false exampleStopped).1, none) ∧
      (start true (start false exampleStopped).1).1.trace
        = exampleStopped.trace ++ [.call .BeginAcquisition, .setCaptureRunning true] ∧
      (start true (start false exampleStopped).1).1.trace.count (.call .BeginAcquisition)
        = exampleStopped.trace.count (.call .BeginAcquisition) + 1 :=
  start_idempotent exampleStopped true rfl rfl

/-- C8: on a connected driver in Stopped, when begin-acquisition fails `start`
fails with AcquisitionStartFailed; the state differs from the initial one only
by the recorded begin-acquisition call, so the stream state is still Stopped
and handle and serial are unchanged. -/
theorem start_failure (s : State)
    (hcam : s.pCam_.isSome = true) (hstop : s.captureRunning_ = false) :
    start true s = ({ s with trace := s.trace ++ [.call .BeginAcquisition] },
                    some .AcquisitionStartFailed) ∧
      (start true s).1.captureRunning_ = false ∧
      (start true s).1.pCam_ = s.pCam_ ∧
      (start true s).1.serial_ = s.serial_ := by
  have h : start true s = ({ s with trace := s.trace ++ [.call .BeginAcquisition] },
                    some .AcquisitionStartFailed) := by
    simp [start, hcam, hstop, emit]
  rw [h]
  exact ⟨rfl, hstop, rfl, rfl⟩

/-- Witness of C8: the stopped example driver. -/
theorem start_failure_witness :
    start true exampleStopped
        = ({ exampleStopped with trace := exampleStopped.trace ++ [.call .BeginAcquisition] },
            some .AcquisitionStartFailed) ∧
      (start true exampleStopped).1.captureRunning_ = false ∧
      (start true exampleStopped).1.pCam_ = exampleStopped.pCam_ ∧
      (start true exampleStopped).1.serial_ = exampleStopped.serial_ :=
  start_failure exampleStopped rfl rfl

/-- C9: `stop` on a Stopped driver changes nothing and issues no device call;
on a connected Running driver it first writes Stopped and then issues
end-acquisition, so the stream state is Stopped afterwards whether
end-acquisition succeeds or fails, and the call fails, with
AcquisitionStopFailed, exactly when end-acquisition fails. -/
theorem stop_behaviour (s : State) (endThrows : Bool) :
    (s.captureRunning_ = false → stop endThrows s = (s, none)) ∧
      (s.pCam_.isSome = true → s.captureRunning_ = true →
        (stop endThrows s).1
            = { s with captureRunning_ := false
                       trace := s.trace ++ [.setCaptureRunning false, .call .EndAcquisition] } ∧
          (stop endThrows s).1.captureRunning_ = false ∧
          (stop endThrows s).2 = (if endThrows then some .AcquisitionStopFailed else none) ∧
          ((stop endThrows s).2 ≠ none ↔ endThrows = true)) := by
  constructor
  · intro hstop
    simp [stop, hstop]
  · intro hcam hrun
    cases endThrows <;> simp [stop, hcam, hrun, emit, setCaptureRunning]

/-- Witness of C9: the stopped and the streaming example drivers, with a
failing end-acquisition. -/
theorem stop_behaviour_witness :
    stop true exampleStopped = (exampleStopped, none) ∧
      ((stop true exampleRunning).1
          = { exampleRunning with
              captureRunning_ := false
              trace := exampleRunning.trace
                ++ [.setCaptureRunning false, .call .EndAcquisition] } ∧
        (stop true exampleRunning).1.captureRunning_ = false ∧
        (stop true exampleRunning).2
          = (if true = true then some .AcquisitionStopFailed else none) ∧
        ((stop true exampleRunning).2 ≠ none ↔ true = true)) :=
  ⟨(stop_behaviour exampleStopped true).1 rfl, (stop_behaviour exampleRunning true).2 rfl rfl⟩

/-! ## A reachable streaming driver -/

/-- The streaming driver obtained from the constructed one by a successful
`connect` and a successful `start` is reachable. -/
theorem reachable_connect_start :
    Reachable (start false (connect exampleConnectEnv (State.init 0)).1).1 :=
  Reachable.step (.start false) _ (Reachable.step (.connect exampleConnectEnv) _ (Reachable.init 0))

/-! ## `disconnect` and streaming -/

/-- C11 (counterexample): on the connected, streaming example driver, with no
SDK call failing, the device calls issued by `disconnect` are deinitialize,
removal from the list and the list refresh; there is no end-acquisition call,
hence none that precedes deinitialize. -/
theorem disconnect_issues_no_endAcquisition :
    deviceCalls (issued exampleRunning (disconnect exampleDisconnectEnv exampleRunning).1)
        = [.DeInit, .RemoveBySerial "17", .GetCameras, .Append] ∧
      ¬ (∀ (s : State) (env : DisconnectEnv), s.pCam_.isSome = true → s.captureRunning_ = true →
          (∃ i j : Nat, i < j ∧
            (deviceCalls (issued s (disconnect env s).1))[i]? = some .EndAcquisition ∧
            (deviceCalls (issued s (disconnect env s).1))[j]? = some .DeInit) ∧
          (disconnect env s).1.pCam_ = none ∧
          (disconnect env s).1.captureRunning_ = false) := by
  have hcalls : deviceCalls (issued exampleRunning
      (disconnect exampleDisconnectEnv exampleRunning).1)
        = [.DeInit, .RemoveBySerial "17", .GetCameras, .Append] := by decide
  refine ⟨hcalls, ?_⟩
  intro h
  obtain ⟨⟨i, j, _, hi, _⟩, _⟩ := h exampleRunning exampleDisconnectEnv rfl rfl
  rw [hcalls] at hi
  have hmem := List.getElem?_mem hi
  revert hmem
  decide

/-- C11 (amended): on a connected driver in Running, `disconnect` first writes
Stopped and then issues deinitialize, without any end-acquisition call; the
stream state is Stopped afterwards, the handle is released when deinitialize
does not fail, and when no SDK call fails the call succeeds and the device
calls are deinitialize, removal from the list, and the two list-refresh calls. -/
theorem disconnect_running (s : State) (env : DisconnectEnv)
    (hcam : s.pCam_.isSome = true) (_hrun : s.captureRunning_ = true) :
    (disconnect env s).1.captureRunning_ = false ∧
      (∃ rest, (disconnect env s).1.trace
          = s.trace ++ [.setCaptureRunning false, .call .DeInit] ++ rest ∧
          Event.call .EndAcquisition ∉ rest) ∧
      (env.deInitThrows = false → (disconnect env s).1.pCam_ = none) ∧
      (env = ⟨false, false, false, false⟩ →
        (disconnect env s).2 = none ∧
        (disconnect env s).1.trace
          = s.trace ++ [.setCaptureRunning false, .call .DeInit,
              .call (.RemoveBySerial (toString s.serial_)), .call .GetCameras,
              .call .Append]) := by
  obtain ⟨d, r, g, a⟩ := env
  refine ⟨?_, ?_, ?_, ?_⟩
  · cases d <;> cases r <;> cases g <;> cases a <;>
      simp [disconnect, disconnectRefresh, emit, setCaptureRunning, hcam]
  · cases d <;> cases r <;> cases g <;> cases a <;>
      simp [disconnect, disconnectRefresh, emit, setCaptureRunning, hcam]
  · intro hd
    simp only at hd
    subst hd
    cases r <;> cases g <;> cases a <;>
      simp [disconnect, disconnectRefresh, emit, setCaptureRunning, hcam]
  · intro henv
    simp only [DisconnectEnv.mk.injEq] at henv
    obtain ⟨rfl, rfl, rfl, rfl⟩ := henv
    simp [disconnect, disconnectRefresh, emit, setCaptureRunning, hcam]

/-- Witness of C11 (amended): the streaming example driver, no SDK call failing. -/
theorem disconnect_running_witness :
    (disconnect exampleDisconnectEnv exampleRunning).1.captureRunning_ = false ∧
      (disconnect exampleDisconnectEnv exampleRunning).1.pCam_ = none ∧
      (disconnect exampleDisconnectEnv exampleRunning).2 = none ∧
      (disconnect exampleDisconnectEnv exampleRunning).1.trace
        = exampleRunning.trace ++ [.setCaptureRunning false, .call .DeInit,
            .call (.RemoveBySerial (toString exampleRunning.serial_)), .call .GetCameras,
            .call .Append] :=
  ⟨(disconnect_running exampleRunning exampleDisconnectEnv rfl rfl).1,
   (disconnect_running exampleRunning exampleDisconnectEnv rfl rfl).2.2.1 rfl,
   ((disconnect_running exampleRunning exampleDisconnectEnv rfl rfl).2.2.2 rfl).1,
   ((disconnect_running exampleRunning exampleDisconnectEnv rfl rfl).2.2.2 rfl).2⟩

/-! ## `setNewConfiguration` -/

/-- C12: on a connected driver (handle held, device model selected), at a level
that requires a restart and with no device call failing, `setNewConfiguration`
succeeds and is `start`, `stop`, apply-configuration and, when the stream was
Running, `start` again, in that order.  From Running it ends Running, having
issued end-acquisition, apply, begin-acquisition; from Stopped it ends Stopped,
having issued begin-acquisition, end-acquisition, apply. -/
theorem setNewConfiguration_restart (lvlStop level : Nat) (env : ConfigEnv) (s : State)
    (hcam : s.pCam_.isSome = true) (hmodel : s.camera_.isSome = true)
    (hlevel : level ≥ lvlStop)
    (hb1 : env.begin1Throws = false) (he : env.endThrows = false)
    (ha : env.applyThrows = false) (hb2 : env.begin2Throws = false) :
    (s.captureRunning_ = true →
      setNewConfiguration lvlStop env level s
        = ((start false (applyConfiguration false level
              (stop false (start false s).1).1).1).1, none) ∧
      (setNewConfiguration lvlStop env level s).1.captureRunning_ = true ∧
      issued s (setNewConfiguration lvlStop env level s).1
        = [.setCaptureRunning false, .call .EndAcquisition,
            .call (.ApplyConfiguration level), .call .BeginAcquisition,
            .setCaptureRunning true]) ∧
    (s.captureRunning_ = false →
      setNewConfiguration lvlStop env level s
        = ((applyConfiguration false level (stop false (start false s).1).1).1, none) ∧
      (setNewConfiguration lvlStop env level s).1.captureRunning_ = false ∧
      issued s (setNewConfiguration lvlStop env level s).1
        = [.call .BeginAcquisition, .setCaptureRunning true, .setCaptureRunning false,
            .call .EndAcquisition, .call (.ApplyConfiguration level)]) := by
  obtain ⟨m, hm⟩ := Option.isSome_iff_exists.mp hmodel
  constructor
  · intro hrun
    simp [setNewConfiguration, reconfigure, start, stop, applyConfiguration, emit,
      setCaptureRunning, issued, hcam, hm, hlevel, hb1, he, ha, hb2, hrun]
  · intro hstop
    simp [setNewConfiguration, reconfigure, start, stop, applyConfiguration, emit,
      setCaptureRunning, issued, hcam, hm, hlevel, hb1, he, ha, hb2, hstop]

/-- Witness of C12: the streaming and the stopped example drivers at level 1
with threshold 1. -/
theorem setNewConfiguration_restart_witness :
    (setNewConfiguration 1 exampleConfigEnv 1 exampleRunning).2 = none ∧
      (setNewConfiguration 1 exampleConfigEnv 1 exampleRunning).1.captureRunning_ = true ∧
      issued exampleRunning (setNewConfiguration 1 exampleConfigEnv 1 exampleRunning).1
        = [.setCaptureRunning false, .call .EndAcquisition,
            .call (.ApplyConfiguration 1), .call .BeginAcquisition,
            .setCaptureRunning true] ∧
      (setNewConfiguration 1 exampleConfigEnv 1 exampleStopped).1.captureRunning_ = false ∧
      issued exampleStopped (setNewConfiguration 1 exampleConfigEnv 1 exampleStopped).1
        = [.call .BeginAcquisition, .setCaptureRunning true, .setCaptureRunning false,
            .call .EndAcquisition, .call (.ApplyConfiguration 1)] :=
  ⟨by rw [((setNewConfiguration_restart 1 1 exampleConfigEnv exampleRunning rfl rfl
        (Nat.le_refl 1) rfl rfl rfl rfl).1 rfl).1],
   ((setNewConfiguration_restart 1 1 exampleConfigEnv exampleRunning rfl rfl
        (Nat.le_refl 1) rfl rfl rfl rfl).1 rfl).2.1,
   ((setNewConfiguration_restart 1 1 exampleConfigEnv exampleRunning rfl rfl
        (Nat.le_refl 1) rfl rfl rfl rfl).1 rfl).2.2,
   ((setNewConfiguration_restart 1 1 exampleConfigEnv exampleStopped rfl rfl
        (Nat.le_refl 1) rfl rfl rfl rfl).2 rfl).2.1,
   ((setNewConfiguration_restart 1 1 exampleConfigEnv exampleStopped rfl rfl
        (Nat.le_refl 1) rfl rfl rfl rfl).2 rfl).2.2⟩

/-! ## Lemmas on `connect` -/

/-- The parameter-file prologue touches only the flag and the stream marker. -/
theorem readParamFile_frame (file : Option (List String)) (s : State) :
    (readParamFile file s).1.pCam_ = s.pCam_ ∧
      (readParamFile file s).1.serial_ = s.serial_ ∧
      (readParamFile file s).1.camera_ = s.camera_ ∧
      (readParamFile file s).1.node_map_ = s.node_map_ ∧
      (readParamFile file s).1.captureRunning_ = s.captureRunning_ ∧
      (readParamFile file s).1.timeout_ = s.timeout_ ∧
      (readParamFile file s).1.trace = s.trace := by
  unfold readParamFile
  split
  · simp
  · split
    · simp
    · simp
    · split <;> simp

/-- The `Init` block keeps handle, serial and stream state, and on success
has selected the device model from the model name. -/
theorem connectInit_spec (env : ConnectEnv) (s : State) :
    (connectInit env s).1.pCam_ = s.pCam_ ∧
      (connectInit env s).1.serial_ = s.serial_ ∧
      (connectInit env s).1.captureRunning_ = s.captureRunning_ ∧
      ((connectInit env s).2 = none →
        (connectInit env s).1.node_map_ = true ∧
        ∃ name h w, env.modelName = some name ∧
          (connectInit env s).1.camera_ = some ⟨selectVariant name, h, w⟩) := by
  unfold connectInit
  cases env.initThrows <;> cases env.modelName <;> cases env.modelCtor <;> simp [emit]

/-- The device-type check keeps handle, serial and stream state, and on
success has selected the device model from the model name. -/
theorem connectDeviceType_spec (env : ConnectEnv) (s : State) :
    (connectDeviceType env s).1.pCam_ = s.pCam_ ∧
      (connectDeviceType env s).1.serial_ = s.serial_ ∧
      (connectDeviceType env s).1.captureRunning_ = s.captureRunning_ ∧
      ((connectDeviceType env s).2 = none →
        (connectDeviceType env s).1.node_map_ = true ∧
        ∃ name h w, env.modelName = some name ∧
          (connectDeviceType env s).1.camera_ = some ⟨selectVariant name, h, w⟩) := by
  unfold connectDeviceType
  split
  · simp [emit]
  · simpa [emit] using connectInit_spec env (emit (.ReadTLNode "DeviceType") s)
  · split
    · split
      · simp [emit]
      · simpa [emit] using connectInit_spec env
          (emit (.ReadTLNode "DeviceCurrentSpeed") (emit (.ReadTLNode "DeviceType") s))
    · simpa [emit] using connectInit_spec env (emit (.ReadTLNode "DeviceType") s)

/-- The transport-layer block keeps handle and stream state; it stores the
converted `DeviceID` exactly when the serial was 0, and on success has selected
the device model from the model name. -/
theorem connectDeviceInfo_spec (env : ConnectEnv) (s : State) :
    (connectDeviceInfo env s).1.pCam_ = s.pCam_ ∧
      (connectDeviceInfo env s).1.captureRunning_ = s.captureRunning_ ∧
      (s.serial_ ≠ 0 → (connectDeviceInfo env s).1.serial_ = s.serial_) ∧
      ((connectDeviceInfo env s).2 = none →
        (s.serial_ = 0 → ∃ v, env.deviceID = .value v ∧
          (connectDeviceInfo env s).1.serial_ = atoiSerial v) ∧
        (connectDeviceInfo env s).1.node_map_ = true ∧
        ∃ name h w, env.modelName = some name ∧
          (connectDeviceInfo env s).1.camera_ = some ⟨selectVariant name, h, w⟩) := by
  unfold connectDeviceInfo
  by_cases h0 : s.serial_ = 0
  · simp only [h0, if_true]
    cases hid : env.deviceID with
    | throws => simp [emit]
    | unreadable => simp [emit]
    | value v =>
      have h := connectDeviceType_spec env
        { emit (.ReadTLNode "DeviceID") s with serial_ := atoiSerial v }
      simp only [emit] at h ⊢
      refine ⟨h.1, h.2.2.1, fun hne => absurd rfl hne, fun hok => ⟨fun _ => ⟨v, by simp, ?_⟩, ?_⟩⟩
      · exact h.2.1
      · exact h.2.2.2 hok
  · simp only [h0, if_false]
    have h := connectDeviceType_spec env s
    exact ⟨h.1, h.2.2.1, fun _ => h.2.1, fun hok => ⟨fun h0' => h0'.elim, h.2.2.2 hok⟩⟩

/-- The device selection keeps the stream state and a non-zero serial; on
success the handle is the camera looked up (the first of the list when the
serial is 0), the serial read back when it was 0, and the device model selected. -/
theorem connectLookup_spec (env : ConnectEnv) (s : State) :
    (connectLookup env s).1.captureRunning_ = s.captureRunning_ ∧
      (s.serial_ ≠ 0 → (connectLookup env s).1.serial_ = s.serial_) ∧
      ((connectLookup env s).2 = none →
        (∃ cam, (connectLookup env s).1.pCam_ = some cam ∧ cam.isValid = true ∧
          (s.serial_ = 0 → env.camList.head? = some cam)) ∧
        (s.serial_ = 0 → ∃ v, env.deviceID = .value v ∧
          (connectLookup env s).1.serial_ = atoiSerial v) ∧
        (connectLookup env s).1.node_map_ = true ∧
        ∃ name h w, env.modelName = some name ∧
          (connectLookup env s).1.camera_ = some ⟨selectVariant name, h, w⟩) := by
  unfold connectLookup
  by_cases h0 : s.serial_ = 0
  · simp only [h0, ne_eq, not_true_eq_false, if_false]
    cases env.lookupThrows
    · cases hhead : env.camList.head? with
      | none => simp [emit]
      | some cam =>
        cases hv : cam.isValid
        · simp [emit, hv]
        · have h := connectDeviceInfo_spec env
            (emit .IsValid { emit (.GetByIndex 0) s with pCam_ := some cam })
          simp only [emit, h0] at h
          simp only [emit, h0, hv, if_true]
          refine ⟨h.2.1, fun hne => hne.elim, fun hok => ?_⟩
          have h4 := h.2.2.2 hok
          exact ⟨⟨cam, h.1, hv, fun _ => rfl⟩, fun _ => h4.1 trivial, h4.2⟩
    · simp [emit]
  · simp only [h0, ne_eq, not_false_eq_true, if_true]
    cases env.lookupThrows
    · cases hfind : env.camList.find? (fun c => c.serial = toString s.serial_) with
      | none => simp [emit]
      | some cam =>
        cases hv : cam.isValid
        · simp [emit, hv]
        · have h := connectDeviceInfo_spec env
            (emit .IsValid { emit (.GetBySerial (toString s.serial_)) s with pCam_ := some cam })
          simp only [emit] at h
          simp only [emit, hv, if_true]
          refine ⟨h.2.1, fun _ => h.2.2.1 h0, fun hok => ?_⟩
          have h4 := h.2.2.2 hok
          exact ⟨⟨cam, h.1, hv, fun h0' => h0'.elim⟩, fun h0' => h0'.elim, h4.2⟩
    · simp [emit]

/-- On a driver that holds a handle, `connect` is its parameter-file prologue. -/
theorem connect_connected (env : ConnectEnv) (s : State) (hcam : s.pCam_.isSome = true) :
    connect env s = readParamFile env.paramFile s := by
  have hp := (readParamFile_frame env.paramFile s).1
  unfold connect
  split
  · next s1 e heq => rw [heq]
  · next s1 heq =>
    rw [heq] at hp
    simp only at hp
    simp [hp, hcam, heq]

/-- On a driver that holds no handle, `connect` is its prologue followed by
the device selection. -/
theorem connect_disconnected (env : ConnectEnv) (s : State) (hcam : s.pCam_ = none) :
    connect env s =
      match readParamFile env.paramFile s with
      | (s1, some e) => (s1, some e)
      | (s1, none) => connectLookup env s1 := by
  have hp := (readParamFile_frame env.paramFile s).1
  unfold connect
  split
  · rfl
  · next s1 heq =>
    rw [heq] at hp
    simp only at hp
    simp [hp, hcam]

/-- The method `connect` keeps the stream state, a held handle, and a non-zero serial. -/
theorem connect_frame (env : ConnectEnv) (s : State) :
    (connect env s).1.captureRunning_ = s.captureRunning_ ∧
      (s.pCam_.isSome = true → (connect env s).1.pCam_ = s.pCam_) ∧
      (s.serial_ ≠ 0 → (connect env s).1.serial_ = s.serial_) := by
  have hp := readParamFile_frame env.paramFile s
  cases hcam : s.pCam_ with
  | some cam =>
    rw [connect_connected env s (by simp [hcam])]
    exact ⟨hp.2.2.2.2.1, fun _ => by rw [hp.1, hcam], fun _ => hp.2.1⟩
  | none =>
    rw [connect_disconnected env s hcam]
    split
    · next s1 e heq =>
      rw [heq] at hp
      exact ⟨hp.2.2.2.2.1, fun h => by simp at h, fun _ => hp.2.1⟩
    · next s1 heq =>
      rw [heq] at hp
      simp only at hp
      have hl := connectLookup_spec env s1
      refine ⟨by rw [hl.1, hp.2.2.2.2.1], fun h => by simp at h, fun hne => ?_⟩
      rw [hl.2.1 (by rw [hp.2.1]; exact hne), hp.2.1]

/-- A successful `connect` on a driver without handle: the handle is a valid
camera (the first of the list when the serial was 0), the serial was read back
when it was 0, the node map is assigned and the device model is selected from
the model name. -/
theorem connect_success (env : ConnectEnv) (s : State) (hcam : s.pCam_ = none)
    (hok : (connect env s).2 = none) :
    (∃ cam, (connect env s).1.pCam_ = some cam ∧ cam.isValid = true ∧
        (s.serial_ = 0 → env.camList.head? = some cam)) ∧
      (s.serial_ = 0 → ∃ v, env.deviceID = .value v ∧
        (connect env s).1.serial_ = atoiSerial v) ∧
      (connect env s).1.node_map_ = true ∧
      ∃ name h w, env.modelName = some name ∧
        (connect env s).1.camera_ = some ⟨selectVariant name, h, w⟩ := by
  have hp := readParamFile_frame env.paramFile s
  rw [connect_disconnected env s hcam] at hok ⊢
  split at hok
  · simp at hok
  · next s1 heq =>
    rw [heq] at hp
    simp only at hp
    have hl := (connectLookup_spec env s1).2.2 hok
    rw [hp.2.1] at hl
    exact hl

/-- The substring test of `connect` is list infix on the characters. -/
theorem containsSubstring_iff (str pat : String) :
    containsSubstring str pat = true ↔ pat.toList <:+: str.toList := by
  unfold containsSubstring
  rw [List.any_eq_true, List.infix_iff_prefix_suffix]
  constructor
  · rintro ⟨t, ht, hpre⟩
    exact ⟨t, List.isPrefixOf_iff_prefix.mp hpre, (List.mem_tails _ _).mp ht⟩
  · rintro ⟨t, hpre, hsuf⟩
    exact ⟨t, (List.mem_tails _ _).mpr hsuf, List.isPrefixOf_iff_prefix.mpr hpre⟩

/-! ## The handle invariant -/

/-- C13 (code evaluated at the failing input): when `Init()` throws, `connect`
on the constructed driver fails with ConnectionFailed but leaves a handle held,
with no node map assigned and no device model selected; this state is
reachable, and a later `connect` with a healthy device is then a no-op that
reports success and still selects no device model. -/
theorem connect_failure_keeps_handle :
    (connect { exampleConnectEnv with initThrows := true } (State.init 0)).2
        = some (.ConnectionFailed .init) ∧
      Reachable (connect { exampleConnectEnv with initThrows := true } (State.init 0)).1 ∧
      (connect { exampleConnectEnv with initThrows := true } (State.init 0)).1.pCam_
        = some ⟨"17", true⟩ ∧
      (connect { exampleConnectEnv with initThrows := true } (State.init 0)).1.node_map_ = false ∧
      (connect { exampleConnectEnv with initThrows := true } (State.init 0)).1.camera_ = none ∧
      connect exampleConnectEnv
          (connect { exampleConnectEnv with initThrows := true } (State.init 0)).1
        = ((connect { exampleConnectEnv with initThrows := true } (State.init 0)).1, none) ∧
      ¬ (∀ s : State, Reachable s → s.pCam_.isSome = true →
          s.node_map_ = true ∧ s.camera_.isSome = true) := by
  have hreach : Reachable
      (connect { exampleConnectEnv with initThrows := true } (State.init 0)).1 :=
    Reachable.step (.connect { exampleConnectEnv with initThrows := true }) _ (Reachable.init 0)
  refine ⟨by decide, hreach, by decide, by decide, by decide, by decide, ?_⟩
  intro h
  have h1 := (h _ hreach (by decide)).1
  revert h1
  decide

/-! ## `connect` on a connected driver -/

/-- C14 (counterexample): `connect` on the connected example driver, whose
frame-checking flag is set, with a parameter file whose first line reads 0,
clears the flag; so `connect` on a connected driver does not leave every
component of the state unchanged. -/
theorem connect_connected_changes_flag :
    exampleRunning.enableFrameChecking = true ∧
      (connect { exampleConnectEnv with paramFile := some ["check: 0"] }
        exampleRunning).1.enableFrameChecking = false ∧
      ¬ (∀ (s : State) (env : ConnectEnv), s.pCam_.isSome = true →
          (connect env s).1.trace = s.trace ∧
          (connect env s).1.pCam_ = s.pCam_ ∧
          (connect env s).1.serial_ = s.serial_ ∧
          (connect env s).1.camera_ = s.camera_ ∧
          (connect env s).1.captureRunning_ = s.captureRunning_ ∧
          (connect env s).1.enableFrameChecking = s.enableFrameChecking) := by
  refine ⟨rfl, by decide, ?_⟩
  intro h
  have h1 := (h exampleRunning { exampleConnectEnv with paramFile := some ["check: 0"] }
    rfl).2.2.2.2.2
  revert h1
  decide

/-- C14 (amended): `connect` on a connected driver issues no device call and
leaves handle, serial, selected device model and stream state unchanged; it
only runs the parameter-file prologue, which sets the frame-checking flag from
the first line of the file when that line holds a number, and changes nothing
when the file cannot be opened. -/
theorem connect_connected_noop (env : ConnectEnv) (s : State)
    (hcam : s.pCam_.isSome = true) :
    (connect env s).1.trace = s.trace ∧
      (connect env s).1.pCam_ = s.pCam_ ∧
      (connect env s).1.serial_ = s.serial_ ∧
      (connect env s).1.camera_ = s.camera_ ∧
      (connect env s).1.captureRunning_ = s.captureRunning_ ∧
      (s.paramFileOpen = false → env.paramFile = none → connect env s = (s, none)) ∧
      (∀ (line : String) (rest : List String) (v : Int),
        s.paramFileOpen = false → env.paramFile = some (line :: rest) →
        stoi (paramToken line 4) = some v →
        connect env s = ({ s with enableFrameChecking := decide (v ≠ 0) }, none)) := by
  have hp := readParamFile_frame env.paramFile s
  rw [connect_connected env s hcam]
  refine ⟨hp.2.2.2.2.2.2, hp.1, hp.2.1, hp.2.2.1, hp.2.2.2.2.1, ?_, ?_⟩
  · intro hopen hfile
    simp [readParamFile, hopen, hfile]
  · intro line rest v hopen hfile hv
    simp [readParamFile, hopen, hfile, hv]

/-- Witness of C14 (amended): the connected example driver and the example
parameter file, whose first line reads 1. -/
theorem connect_connected_noop_witness :
    (connect exampleConnectEnv exampleRunning).1.trace = exampleRunning.trace ∧
      (connect exampleConnectEnv exampleRunning).1.pCam_ = exampleRunning.pCam_ ∧
      (connect exampleConnectEnv exampleRunning).1.serial_ = exampleRunning.serial_ ∧
      (connect exampleConnectEnv exampleRunning).1.camera_ = exampleRunning.camera_ ∧
      (connect exampleConnectEnv exampleRunning).1.captureRunning_
        = exampleRunning.captureRunning_ ∧
      connect exampleConnectEnv exampleRunning
        = ({ exampleRunning with enableFrameChecking := decide ((1 : Int) ≠ 0) }, none) :=
  ⟨(connect_connected_noop exampleConnectEnv exampleRunning rfl).1,
   (connect_connected_noop exampleConnectEnv exampleRunning rfl).2.1,
   (connect_connected_noop exampleConnectEnv exampleRunning rfl).2.2.1,
   (connect_connected_noop exampleConnectEnv exampleRunning rfl).2.2.2.1,
   (connect_connected_noop exampleConnectEnv exampleRunning rfl).2.2.2.2.1,
   (connect_connected_noop exampleConnectEnv exampleRunning rfl).2.2.2.2.2.2
     "check: 1" [] 1 rfl rfl (by decide)⟩

/-! ## Device selection, serial and device model -/

/-- On a run of decimal digits `readDigits` computes the number they denote. -/
theorem readDigits_digits (ds : List Char) (hall : ∀ c ∈ ds, c.isDigit = true)
    (acc : Nat) (seen : Bool) :
    readDigits ds acc seen
      = (acc * 10 ^ ds.length
          + Nat.ofDigits 10 (ds.reverse.map (fun c => c.toNat - '0'.toNat)),
         seen || !ds.isEmpty) := by
  induction ds generalizing acc seen with
  | nil => simp [readDigits]
  | cons c cs ih =>
    have hc : c.isDigit = true := hall c (List.mem_cons_self c cs)
    have hcs : ∀ d ∈ cs, d.isDigit = true := fun d hd => hall d (List.mem_cons_of_mem c hd)
    simp only [readDigits, hc, if_true, ih hcs, Prod.mk.injEq]
    constructor
    · simp only [List.reverse_cons, List.map_append, List.map_cons, List.map_nil,
        Nat.ofDigits_append, Nat.ofDigits_singleton, List.length_map, List.length_reverse,
        List.length_cons]
      ring
    · simp

/-- A decimal digit is neither white space nor a sign. -/
theorem isDigit_not_space_sign (c : Char) (hc : c.isDigit = true) :
    isSpace c = false ∧ c ≠ '-' ∧ c ≠ '+' := by
  have h11 : c.toNat ≠ 11 := fun h => by
    have hc2 : c = Char.ofNat 11 := by rw [← h, Char.ofNat_toNat]
    rw [hc2] at hc
    revert hc
    decide
  have h12 : c.toNat ≠ 12 := fun h => by
    have hc2 : c = Char.ofNat 12 := by rw [← h, Char.ofNat_toNat]
    rw [hc2] at hc
    revert hc
    decide
  have hne : ∀ d : Char, d.isDigit = false → c ≠ d := fun d hd h => by
    rw [h, hd] at hc
    cases hc
  refine ⟨?_, hne '-' (by decide), hne '+' (by decide)⟩
  simp [isSpace, hne ' ' (by decide), hne '\t' (by decide), hne '\n' (by decide),
    hne '\r' (by decide), h11, h12]

/-- On a non-empty string of decimal digits `strtol` reads the number they denote. -/
theorem strtol_digits (ds : List Char) (hne : ds ≠ [])
    (hall : ∀ c ∈ ds, c.isDigit = true) :
    strtol ds
      = some ((Nat.ofDigits 10 (ds.reverse.map (fun c => c.toNat - '0'.toNat)) : Nat) : Int) := by
  cases ds with
  | nil => exact absurd rfl hne
  | cons c cs =>
    obtain ⟨h1, h2, h3⟩ := isDigit_not_space_sign c (hall c (List.mem_cons_self c cs))
    have hr := readDigits_digits (c :: cs) hall 0 false
    simp only [Nat.zero_mul, Nat.zero_add, List.isEmpty_cons, Bool.not_false,
      Bool.or_true] at hr
    simp only [strtol, h1, h2, h3, hr, if_false, Bool.false_eq_true]

/-- The serial stored for a `DeviceID` that is a decimal numeral: the number
modulo 2^32 while it fits a `long`, and 2^32 - 1 beyond. -/
theorem atoiSerial_digits (v : String) (hne : v.toList ≠ [])
    (hall : ∀ c ∈ v.toList, c.isDigit = true) :
    atoiSerial v
      = (if Nat.ofDigits 10 (v.toList.reverse.map (fun c => c.toNat - '0'.toNat)) < 2 ^ 63
         then Nat.ofDigits 10 (v.toList.reverse.map (fun c => c.toNat - '0'.toNat)) % 2 ^ 32
         else 2 ^ 32 - 1) := by
  unfold atoiSerial atoi LONG_MAX LONG_MIN
  rw [strtol_digits v.toList hne hall]
  simp only [Option.getD_some]
  generalize Nat.ofDigits 10 (v.toList.reverse.map (fun c => c.toNat - '0'.toNat)) = n
  split_ifs <;> omega

/-- C15 (counterexample): on a system whose first camera reports the ID
"4294967296", `connect` on the constructed driver (serial 0) succeeds and
stores the serial 0, although the reported ID is the non-zero number 2^32; so
the stored serial is not always the reported ID, and is not always non-zero
when the ID is. -/
theorem connect_serial_wide_id :
    (connect { exampleConnectEnv with deviceID := .value "4294967296" } (State.init 0)).2
        = none ∧
      (connect { exampleConnectEnv with deviceID := .value "4294967296" }
        (State.init 0)).1.serial_ = 0 ∧
      Nat.ofDigits 10 ("4294967296".toList.reverse.map (fun c => c.toNat - '0'.toNat))
        = 4294967296 ∧
      ¬ (∀ (env : ConnectEnv) (s : State) (v : String),
          s.pCam_ = none → s.serial_ = 0 → (connect env s).2 = none →
          env.deviceID = .value v → v.toList ≠ [] → (∀ c ∈ v.toList, c.isDigit = true) →
          (connect env s).1.serial_
              = Nat.ofDigits 10 (v.toList.reverse.map (fun c => c.toNat - '0'.toNat)) ∧
            (Nat.ofDigits 10 (v.toList.reverse.map (fun c => c.toNat - '0'.toNat)) ≠ 0 →
              (connect env s).1.serial_ ≠ 0)) := by
  refine ⟨by decide, by decide, by decide, ?_⟩
  intro h
  have h1 := (h { exampleConnectEnv with deviceID := .value "4294967296" } (State.init 0)
    "4294967296" rfl rfl (by decide) rfl (by decide) (by decide)).2 (by decide)
  revert h1
  decide

/-- C15 (amended): on a driver without handle and with serial 0, a successful
`connect` takes the first camera of the list as handle and stores as serial
what `atoi` reads from its `DeviceID`, narrowed to 32 bits.  For an ID that is
a decimal numeral this is the number modulo 2^32 while it fits a `long` (and
2^32 - 1 beyond): the number itself when it is below 2^32, so that then a
non-zero ID gives a non-zero serial.  With a non-zero serial, `connect` leaves
the serial unchanged. -/
theorem connect_serial (env : ConnectEnv) (s : State) :
    (s.pCam_ = none → s.serial_ = 0 → (connect env s).2 = none →
      ∃ cam v, env.camList.head? = some cam ∧ env.deviceID = .value v ∧
        (connect env s).1.pCam_ = some cam ∧
        (connect env s).1.serial_ = atoiSerial v ∧
        (v.toList ≠ [] → (∀ c ∈ v.toList, c.isDigit = true) →
          (connect env s).1.serial_
              = (if Nat.ofDigits 10 (v.toList.reverse.map (fun c => c.toNat - '0'.toNat))
                    < 2 ^ 63
                 then Nat.ofDigits 10 (v.toList.reverse.map (fun c => c.toNat - '0'.toNat))
                    % 2 ^ 32
                 else 2 ^ 32 - 1) ∧
            (Nat.ofDigits 10 (v.toList.reverse.map (fun c => c.toNat - '0'.toNat)) < 2 ^ 32 →
              (connect env s).1.serial_
                  = Nat.ofDigits 10 (v.toList.reverse.map (fun c => c.toNat - '0'.toNat)) ∧
                (Nat.ofDigits 10 (v.toList.reverse.map (fun c => c.toNat - '0'.toNat)) ≠ 0 →
                  (connect env s).1.serial_ ≠ 0)))) ∧
    (s.serial_ ≠ 0 → (connect env s).1.serial_ = s.serial_) := by
  refine ⟨fun hcam h0 hok => ?_, (connect_frame env s).2.2⟩
  obtain ⟨⟨cam, hp, _, hhead⟩, hser, _, _⟩ := connect_success env s hcam hok
  obtain ⟨v, hv, hs⟩ := hser h0
  refine ⟨cam, v, hhead h0, hv, hp, hs, fun hne hall => ?_⟩
  have hd := atoiSerial_digits v hne hall
  rw [hs, hd]
  generalize Nat.ofDigits 10 (v.toList.reverse.map (fun c => c.toNat - '0'.toNat)) = n
  refine ⟨rfl, fun hn => ?_⟩
  have h63 : n < 2 ^ 63 := by omega
  rw [if_pos h63, Nat.mod_eq_of_lt hn]
  exact ⟨rfl, fun hne0 => hne0⟩

/-- Witness of C15 (amended): the constructed driver (serial 0) on the example
system, whose only camera reports the ID "17", ends with that camera as handle
and the serial 17; the constructed driver with the desired serial 17 keeps it. -/
theorem connect_serial_witness :
    (connect exampleConnectEnv (State.init 0)).2 = none ∧
      (connect exampleConnectEnv (State.init 0)).1.pCam_ = some ⟨"17", true⟩ ∧
      (connect exampleConnectEnv (State.init 0)).1.serial_ = 17 ∧
      (connect exampleConnectEnv (setDesiredCamera 17 (State.init 0))).1.serial_
        = (setDesiredCamera 17 (State.init 0)).serial_ := by
  obtain ⟨cam, v, hhead, hv, hp, _, hdig⟩ :=
    (connect_serial exampleConnectEnv (State.init 0)).1 rfl rfl (by decide)
  have hv2 : v = "17" := by
    have : NodeRead.value "17" = NodeRead.value v := hv
    exact (NodeRead.value.inj this).symm
  have hcam : cam = ⟨"17", true⟩ := by
    have : some (⟨"17", true⟩ : CameraRef) = some cam := hhead
    exact (Option.some.inj this).symm
  subst hv2
  subst hcam
  refine ⟨by decide, hp, ?_,
    (connect_serial exampleConnectEnv (setDesiredCamera 17 (State.init 0))).2 (by decide)⟩
  have h17 := ((hdig (by decide) (by decide)).2 (by decide)).1
  rw [h17]
  decide

/-- C16: the device model is chosen from the model name alone, by substring
search: the variant `Cm3` exactly when the name contains "Chameleon3" and does
not contain "Blackfly S", the variant `Camera` in every other case; a
successful `connect` on a driver without handle installs the variant so chosen
for the model name the device reports. -/
theorem connect_selects_variant (env : ConnectEnv) (s : State) (name : String) :
    (selectVariant name = .Cm3 ↔
      ("Chameleon3".toList <:+: name.toList ∧ ¬ "Blackfly S".toList <:+: name.toList)) ∧
    (selectVariant name = .Camera ↔
      ("Blackfly S".toList <:+: name.toList ∨ ¬ "Chameleon3".toList <:+: name.toList)) ∧
    (s.pCam_ = none → (connect env s).2 = none → env.modelName = some name →
      ∃ h w, (connect env s).1.camera_ = some ⟨selectVariant name, h, w⟩) := by
  have hb := containsSubstring_iff name "Blackfly S"
  have hc := containsSubstring_iff name "Chameleon3"
  refine ⟨?_, ?_, fun hcam hok hname => ?_⟩
  · rw [← hb, ← hc]
    unfold selectVariant
    cases h1 : containsSubstring name "Blackfly S" <;>
      cases h2 : containsSubstring name "Chameleon3" <;>
      simp
  · rw [← hb, ← hc]
    unfold selectVariant
    cases h1 : containsSubstring name "Blackfly S" <;>
      cases h2 : containsSubstring name "Chameleon3" <;>
      simp
  · obtain ⟨_, _, _, name2, h, w, hname2, hmodel⟩ := connect_success env s hcam hok
    rw [hname] at hname2
    cases hname2
    exact ⟨h, w, hmodel⟩

/-- Witness of C16: the constructed driver on the example system, whose camera
reports the model name "Blackfly S BFS-U3-16S2C". -/
theorem connect_selects_variant_witness :
    ∃ h w, (connect exampleConnectEnv (State.init 0)).1.camera_
      = some ⟨selectVariant "Blackfly S BFS-U3-16S2C", h, w⟩ :=
  (connect_selects_variant exampleConnectEnv (State.init 0) "Blackfly S BFS-U3-16S2C").2.2
    rfl (by decide) rfl

/-! ## Running implies a handle -/

/-- The method `start` keeps "Running implies a handle". -/
theorem start_keeps_handle (b : Bool) (s : State)
    (h : s.captureRunning_ = true → s.pCam_.isSome = true) :
    (start b s).1.captureRunning_ = true → (start b s).1.pCam_.isSome = true := by
  unfold start
  cases hcam : s.pCam_.isSome <;> cases hrun : s.captureRunning_ <;> cases b <;>
    simp_all [emit, setCaptureRunning]

/-- The method `stop` keeps "Running implies a handle". -/
theorem stop_keeps_handle (b : Bool) (s : State)
    (h : s.captureRunning_ = true → s.pCam_.isSome = true) :
    (stop b s).1.captureRunning_ = true → (stop b s).1.pCam_.isSome = true := by
  unfold stop
  cases hcam : s.pCam_.isSome <;> cases hrun : s.captureRunning_ <;> cases b <;>
    simp_all [emit, setCaptureRunning]

/-- The device model call keeps handle and stream state. -/
theorem applyConfiguration_frame (b : Bool) (level : Nat) (s : State) :
    (applyConfiguration b level s).1.captureRunning_ = s.captureRunning_ ∧
      (applyConfiguration b level s).1.pCam_ = s.pCam_ := by
  unfold applyConfiguration
  cases s.camera_ <;> cases b <;> simp [emit]

/-- The method `disconnect` always ends Stopped. -/
theorem disconnect_stopped (env : DisconnectEnv) (s : State) :
    (disconnect env s).1.captureRunning_ = false := by
  obtain ⟨d, r, g, a⟩ := env
  cases hcam : s.pCam_.isSome <;> cases d <;> cases r <;> cases g <;> cases a <;>
    simp [disconnect, disconnectRefresh, emit, setCaptureRunning, hcam]

/-- The method `grabImage` keeps handle and stream state. -/
theorem grabImage_frame (env : GrabEnv) (frame_id : String) (image : Image) (s : State) :
    (grabImage env frame_id image s).1.captureRunning_ = s.captureRunning_ ∧
      (grabImage env frame_id image s).1.pCam_ = s.pCam_ := by
  unfold grabImage
  split
  · split
    · simp [emit]
    · split
      · simp [emit]
      · split
        · simp [emit]
        · split <;> simp [emit]
  · split <;> simp

/-- The body of `setNewConfiguration` keeps "Running implies a handle". -/
theorem reconfigure_keeps_handle (lvlStop : Nat) (env : ConfigEnv) (level : Nat) (s : State)
    (h : s.captureRunning_ = true → s.pCam_.isSome = true) :
    (reconfigure lvlStop env level s).1.captureRunning_ = true →
      (reconfigure lvlStop env level s).1.pCam_.isSome = true := by
  have h1 := start_keeps_handle env.begin1Throws s h
  have h2 := stop_keeps_handle env.endThrows (start env.begin1Throws s).1 h1
  have hap := applyConfiguration_frame env.applyThrows level
  unfold reconfigure
  split
  · split
    · next s1 e heq => rw [heq] at h1; exact h1
    · next s1 heq =>
      rw [heq] at h2
      simp only at h2
      split
      · next s2 e heq2 => rw [heq2] at h2; exact h2
      · next s2 heq2 =>
        rw [heq2] at h2
        simp only at h2
        have h3 : (applyConfiguration env.applyThrows level s2).1.captureRunning_ = true →
            (applyConfiguration env.applyThrows level s2).1.pCam_.isSome = true := by
          rw [(hap s2).1, (hap s2).2]
          exact h2
        split
        · next s3 e heq3 => rw [heq3] at h3; exact h3
        · next s3 heq3 =>
          rw [heq3] at h3
          simp only at h3
          by_cases hw : s.captureRunning_ = true
          · simp only [hw, if_true]
            exact start_keeps_handle env.begin2Throws s3 h3
          · simp only [hw, if_false]
            exact h3
  · rw [(hap s).1, (hap s).2]
    exact h

/-- Every public method keeps "Running implies a handle". -/
theorem run_keeps_handle (op : Op) (s : State)
    (h : s.captureRunning_ = true → s.pCam_.isSome = true) :
    (op.run s).captureRunning_ = true → (op.run s).pCam_.isSome = true := by
  have hconn : ∀ env : ConnectEnv, (connect env s).1.captureRunning_ = true →
      (connect env s).1.pCam_.isSome = true := by
    intro env hrun
    have hf := connect_frame env s
    rw [hf.1] at hrun
    rw [hf.2.1 (h hrun)]
    exact h hrun
  cases op with
  | connect env => exact hconn env
  | disconnect env =>
    intro hrun
    have := disconnect_stopped env s
    simp only [Op.run] at hrun
    rw [this] at hrun
    cases hrun
  | start b => exact start_keeps_handle b s h
  | stop b => exact stop_keeps_handle b s h
  | grabImage env fid img =>
    simp only [Op.run]
    rw [(grabImage_frame env fid img s).1, (grabImage_frame env fid img s).2]
    exact h
  | setNewConfiguration lvl env level =>
    simp only [Op.run]
    unfold setNewConfiguration
    split
    · exact reconfigure_keeps_handle lvl env level s h
    · have hc := hconn env.connectEnv
      split
      · next s1 e heq => rw [heq] at hc; exact hc
      · next s1 heq =>
        rw [heq] at hc
        exact reconfigure_keeps_handle lvl env level s1 hc
  | setTimeout t => exact h
  | setDesiredCamera id => exact h

/-- C17: the constructed driver is Stopped and holds no handle, and in every
state reachable from it by calls of `connect`, `disconnect`, `start`, `stop`,
`grabImage`, `setNewConfiguration`, `setTimeout` and `setDesiredCamera`
(failing calls included) the stream state Running implies that a handle is held. -/
theorem running_implies_handle (s : State) (hreach : Reachable s) :
    (∀ timeout0, (State.init timeout0).captureRunning_ = false ∧
        (State.init timeout0).pCam_ = none) ∧
      (s.captureRunning_ = true → s.pCam_.isSome = true) := by
  refine ⟨fun _ => ⟨rfl, rfl⟩, ?_⟩
  induction hreach with
  | init t => intro h; cases h
  | step op s _ ih => exact run_keeps_handle op s ih

/-- Witness of C17: the driver after a successful `connect` and `start` is
reachable, is Running and holds a handle. -/
theorem running_implies_handle_witness :
    (start false (connect exampleConnectEnv (State.init 0)).1).1.captureRunning_ = true ∧
      (start false (connect exampleConnectEnv (State.init 0)).1).1.pCam_.isSome = true :=
  ⟨by decide, (running_implies_handle _ reachable_connect_start).2 (by decide)⟩

/-! ## Failure of the configuration apply -/

/-- C18: on a connected driver (handle held, device model selected), at a level
that requires a restart, when the preliminary `start` and `stop` succeed and
the device model's apply throws, `setNewConfiguration` fails with that error,
the handle is unchanged, and the driver ends Stopped whether it was Running or
not: the last call issued is the apply, and no begin-acquisition follows it. -/
theorem setNewConfiguration_apply_failure (lvlStop level : Nat) (env : ConfigEnv) (s : State)
    (hcam : s.pCam_.isSome = true) (hmodel : s.camera_.isSome = true)
    (hlevel : level ≥ lvlStop)
    (hb1 : env.begin1Throws = false) (he : env.endThrows = false)
    (ha : env.applyThrows = true) :
    (setNewConfiguration lvlStop env level s).2 = some .ConfigurationFailed ∧
      (setNewConfiguration lvlStop env level s).1.pCam_ = s.pCam_ ∧
      (setNewConfiguration lvlStop env level s).1.captureRunning_ = false ∧
      issued s (setNewConfiguration lvlStop env level s).1
        = (if s.captureRunning_ then [] else [.call .BeginAcquisition, .setCaptureRunning true])
          ++ [.setCaptureRunning false, .call .EndAcquisition,
              .call (.ApplyConfiguration level)] := by
  obtain ⟨m, hm⟩ := Option.isSome_iff_exists.mp hmodel
  cases hrun : s.captureRunning_ <;>
    simp [setNewConfiguration, reconfigure, start, stop, applyConfiguration, emit,
      setCaptureRunning, issued, hcam, hm, hlevel, hb1, he, ha, hrun]

/-- Witness of C18: the streaming and the stopped example drivers at level 1
with threshold 1, the apply throwing. -/
theorem setNewConfiguration_apply_failure_witness :
    ((setNewConfiguration 1 { exampleConfigEnv with applyThrows := true } 1 exampleRunning).2
        = some .ConfigurationFailed ∧
      (setNewConfiguration 1 { exampleConfigEnv with applyThrows := true } 1
          exampleRunning).1.captureRunning_ = false) ∧
    ((setNewConfiguration 1 { exampleConfigEnv with applyThrows := true } 1 exampleStopped).2
        = some .ConfigurationFailed ∧
      (setNewConfiguration 1 { exampleConfigEnv with applyThrows := true } 1
          exampleStopped).1.captureRunning_ = false) :=
  ⟨⟨(setNewConfiguration_apply_failure 1 1 { exampleConfigEnv with applyThrows := true }
        exampleRunning rfl rfl (Nat.le_refl 1) rfl rfl rfl).1,
    (setNewConfiguration_apply_failure 1 1 { exampleConfigEnv with applyThrows := true }
        exampleRunning rfl rfl (Nat.le_refl 1) rfl rfl rfl).2.2.1⟩,
   ⟨(setNewConfiguration_apply_failure 1 1 { exampleConfigEnv with applyThrows := true }
        exampleStopped rfl rfl (Nat.le_refl 1) rfl rfl rfl).1,
    (setNewConfiguration_apply_failure 1 1 { exampleConfigEnv with applyThrows := true }
        exampleStopped rfl rfl (Nat.le_refl 1) rfl rfl rfl).2.2.1⟩⟩

/-! ## Image size -/

/-- With no write throwing, `writeAll` issues every write, in order. -/
theorem writeAll_all (env : NodeMapEnv) (hw : ∀ w, env.writeThrows w = false)
    (ws done : List PropertyWrite) : writeAll env ws done = (done ++ ws, false) := by
  induction ws generalizing done with
  | nil => simp [writeAll]
  | cons w ws ih => simp [writeAll, hw w, ih]

/-- The size written lies between 1 and the maximum, and is the requested size
exactly when that lies between 1 and the maximum. -/
theorem roiSize_spec (roi max_ : Int) (hmax : 1 ≤ max_) :
    Camera.roiSize roi max_ = (if 0 < roi ∧ roi ≤ max_ then roi else max_) ∧
      1 ≤ Camera.roiSize roi max_ ∧ Camera.roiSize roi max_ ≤ max_ := by
  unfold Camera.roiSize
  by_cases h1 : roi ≤ 0
  · have h2 : ¬ (0 < roi ∧ roi ≤ max_) := fun h => absurd h.1 (by omega)
    rw [if_pos (Or.inl h1), if_neg h2]
    exact ⟨rfl, hmax, le_refl _⟩
  · by_cases h3 : roi > max_
    · have h2 : ¬ (0 < roi ∧ roi ≤ max_) := fun h => absurd h.2 (by omega)
      rw [if_pos (Or.inr h3), if_neg h2]
      exact ⟨rfl, hmax, le_refl _⟩
    · have h2 : 0 < roi ∧ roi ≤ max_ := ⟨by omega, by omega⟩
      have h4 : ¬ (roi ≤ 0 ∨ roi > max_) := fun h => h.elim h1 h3
      rw [if_neg h4, if_pos h2]
      exact ⟨rfl, by omega, h2.2⟩

/-- The writes issued by `writeAll` are the earlier ones followed by an
initial part of the requested ones. -/
theorem writeAll_fst (env : NodeMapEnv) (ws done : List PropertyWrite) :
    ∃ k, (writeAll env ws done).1 = done ++ ws.take k := by
  induction ws generalizing done with
  | nil => exact ⟨0, by simp [writeAll]⟩
  | cons w ws ih =>
    unfold writeAll
    split
    · exact ⟨1, by simp⟩
    · obtain ⟨k, hk⟩ := ih (done ++ [w])
      exact ⟨k + 1, by simp [hk]⟩

/-- When `writeAll` raises no exception, every requested write was issued. -/
theorem writeAll_false (env : NodeMapEnv) (ws done : List PropertyWrite)
    (h : (writeAll env ws done).2 = false) : (writeAll env ws done).1 = done ++ ws := by
  induction ws generalizing done with
  | nil => simp [writeAll]
  | cons w ws ih =>
    unfold writeAll at h ⊢
    split
    · next hthrow => simp [hthrow] at h
    · next hthrow =>
      simp only [hthrow] at h
      simpa using ih (done ++ [w]) h

/-- C19: when the device reports the maxima `height_max` and `width_max`, both
at least 1, the property writes `setImageControlFormats` issues are an initial
part of this sequence: the binning and decimation, both offsets as 0, Width,
Height, both offsets as configured, and the pixel format; when no write throws
the call succeeds and issues all of them.  The Width written is the requested
ROI width when that lies in `[1, width_max]` and `width_max` otherwise, and
likewise for Height, so both lie between 1 and their maximum. -/
theorem setImageControlFormats_writes (env : NodeMapEnv) (fmt : String)
    (config : SpinnakerConfig) (cam : CameraModel) (height_max width_max : Int)
    (hh : env.heightMax = .value height_max) (hwd : env.widthMax = .value width_max)
    (hhmax : 1 ≤ height_max) (hwmax : 1 ≤ width_max) :
    ((Camera.setImageControlFormats env fmt config cam).2.1 <+:
        [⟨"BinningHorizontal", .int config.image_format_x_binning⟩,
         ⟨"BinningVertical", .int config.image_format_y_binning⟩,
         ⟨"DecimationHorizontal", .int config.image_format_x_decimation⟩,
         ⟨"DecimationVertical", .int config.image_format_y_decimation⟩,
         ⟨"OffsetX", .int 0⟩,
         ⟨"OffsetY", .int 0⟩,
         ⟨"Width", .int (if 0 < config.image_format_roi_width
              ∧ config.image_format_roi_width ≤ width_max
            then config.image_format_roi_width else width_max)⟩,
         ⟨"Height", .int (if 0 < config.image_format_roi_height
              ∧ config.image_format_roi_height ≤ height_max
            then config.image_format_roi_height else height_max)⟩,
         ⟨"OffsetX", .int config.image_format_x_offset⟩,
         ⟨"OffsetY", .int config.image_format_y_offset⟩,
         ⟨"PixelFormat", .str fmt⟩]) ∧
    ((∀ w, env.writeThrows w = false) →
      Camera.setImageControlFormats env fmt config cam
        = ({ cam with height_max_ := height_max, width_max_ := width_max },
            [⟨"BinningHorizontal", .int config.image_format_x_binning⟩,
             ⟨"BinningVertical", .int config.image_format_y_binning⟩,
             ⟨"DecimationHorizontal", .int config.image_format_x_decimation⟩,
             ⟨"DecimationVertical", .int config.image_format_y_decimation⟩,
             ⟨"OffsetX", .int 0⟩,
             ⟨"OffsetY", .int 0⟩,
             ⟨"Width", .int (if 0 < config.image_format_roi_width
                  ∧ config.image_format_roi_width ≤ width_max
                then config.image_format_roi_width else width_max)⟩,
             ⟨"Height", .int (if 0 < config.image_format_roi_height
                  ∧ config.image_format_roi_height ≤ height_max
                then config.image_format_roi_height else height_max)⟩,
             ⟨"OffsetX", .int config.image_format_x_offset⟩,
             ⟨"OffsetY", .int config.image_format_y_offset⟩,
             ⟨"PixelFormat", .str fmt⟩], none)) ∧
    (1 ≤ (if 0 < config.image_format_roi_width ∧ config.image_format_roi_width ≤ width_max
          then config.image_format_roi_width else width_max) ∧
      (if 0 < config.image_format_roi_width ∧ config.image_format_roi_width ≤ width_max
          then config.image_format_roi_width else width_max) ≤ width_max) ∧
    (1 ≤ (if 0 < config.image_format_roi_height ∧ config.image_format_roi_height ≤ height_max
          then config.image_format_roi_height else height_max) ∧
      (if 0 < config.image_format_roi_height ∧ config.image_format_roi_height ≤ height_max
          then config.image_format_roi_height else height_max) ≤ height_max) := by
  have hW := roiSize_spec config.image_format_roi_width width_max hwmax
  have hH := roiSize_spec config.image_format_roi_height height_max hhmax
  refine ⟨?_, ?_, hW.1 ▸ hW.2, hH.1 ▸ hH.2⟩
  · unfold Camera.setImageControlFormats
    simp only [hh, hwd, hW.1, hH.1]
    split
    · next ws hwa =>
      obtain ⟨k, hk⟩ := writeAll_fst env
        [⟨"BinningHorizontal", .int config.image_format_x_binning⟩,
         ⟨"BinningVertical", .int config.image_format_y_binning⟩,
         ⟨"DecimationHorizontal", .int config.image_format_x_decimation⟩,
         ⟨"DecimationVertical", .int config.image_format_y_decimation⟩] []
      rw [hwa] at hk
      simp only [List.nil_append] at hk
      simp only [hk]
      exact (List.take_prefix k _).trans ⟨_, rfl⟩
    · next ws hwa =>
      have hall := writeAll_false env
        [⟨"BinningHorizontal", .int config.image_format_x_binning⟩,
         ⟨"BinningVertical", .int config.image_format_y_binning⟩,
         ⟨"DecimationHorizontal", .int config.image_format_x_decimation⟩,
         ⟨"DecimationVertical", .int config.image_format_y_decimation⟩] [] (by rw [hwa])
      rw [hwa] at hall
      simp only [List.nil_append] at hall
      subst hall
      have hpre : ∀ ws2 : List PropertyWrite × Bool,
          ws2 = writeAll env
            [⟨"OffsetX", .int 0⟩, ⟨"OffsetY", .int 0⟩,
             ⟨"Width", .int (if 0 < config.image_format_roi_width
                  ∧ config.image_format_roi_width ≤ width_max
                then config.image_format_roi_width else width_max)⟩,
             ⟨"Height", .int (if 0 < config.image_format_roi_height
                  ∧ config.image_format_roi_height ≤ height_max
                then config.image_format_roi_height else height_max)⟩,
             ⟨"OffsetX", .int config.image_format_x_offset⟩,
             ⟨"OffsetY", .int config.image_format_y_offset⟩,
             ⟨"PixelFormat", .str fmt⟩]
            [⟨"BinningHorizontal", .int config.image_format_x_binning⟩,
             ⟨"BinningVertical", .int config.image_format_y_binning⟩,
             ⟨"DecimationHorizontal", .int config.image_format_x_decimation⟩,
             ⟨"DecimationVertical", .int config.image_format_y_decimation⟩] →
          ws2.1 <+:
            [⟨"BinningHorizontal", .int config.image_format_x_binning⟩,
             ⟨"BinningVertical", .int config.image_format_y_binning⟩,
             ⟨"DecimationHorizontal", .int config.image_format_x_decimation⟩,
             ⟨"DecimationVertical", .int config.image_format_y_decimation⟩,
             ⟨"OffsetX", .int 0⟩, ⟨"OffsetY", .int 0⟩,
             ⟨"Width", .int (if 0 < config.image_format_roi_width
                  ∧ config.image_format_roi_width ≤ width_max
                then config.image_format_roi_width else width_max)⟩,
             ⟨"Height", .int (if 0 < config.image_format_roi_height
                  ∧ config.image_format_roi_height ≤ height_max
                then config.image_format_roi_height else height_max)⟩,
             ⟨"OffsetX", .int config.image_format_x_offset⟩,
             ⟨"OffsetY", .int config.image_format_y_offset⟩,
             ⟨"PixelFormat", .str fmt⟩] := by
        intro ws2 h2
        obtain ⟨k, hk⟩ := writeAll_fst env
          [⟨"OffsetX", .int 0⟩, ⟨"OffsetY", .int 0⟩,
           ⟨"Width", .int (if 0 < config.image_format_roi_width
                ∧ config.image_format_roi_width ≤ width_max
              then config.image_format_roi_width else width_max)⟩,
           ⟨"Height", .int (if 0 < config.image_format_roi_height
                ∧ config.image_format_roi_height ≤ height_max
              then config.image_format_roi_height else height_max)⟩,
           ⟨"OffsetX", .int config.image_format_x_offset⟩,
           ⟨"OffsetY", .int config.image_format_y_offset⟩,
           ⟨"PixelFormat", .str fmt⟩]
          [⟨"BinningHorizontal", .int config.image_format_x_binning⟩,
           ⟨"BinningVertical", .int config.image_format_y_binning⟩,
           ⟨"DecimationHorizontal", .int config.image_format_x_decimation⟩,
           ⟨"DecimationVertical", .int config.image_format_y_decimation⟩]
        rw [h2, hk]
        exact ((List.prefix_append_right_inj _).mpr (List.take_prefix k _)).trans ⟨[], rfl⟩
      split
      · next ws2 hwa2 => simpa [hwa2] using hpre _ rfl
      · next ws2 hwa2 => simpa [hwa2] using hpre _ rfl
  · intro hw
    unfold Camera.setImageControlFormats
    simp only [writeAll_all env hw, hh, hwd, hW.1, hH.1, List.nil_append, List.cons_append]

/-- Witness of C19: the example configuration (640 x 2000 requested) on a
node map reporting a 1920 x 1080 maximum: Width 640 and Height 1080 are written. -/
theorem setImageControlFormats_writes_witness :
    Camera.setImageControlFormats exampleNodeMapEnv "BayerRG8" exampleConfig ⟨.Camera, 0, 0⟩
        = (⟨.Camera, 1080, 1920⟩,
            [⟨"BinningHorizontal", .int 1⟩, ⟨"BinningVertical", .int 1⟩,
             ⟨"DecimationHorizontal", .int 1⟩, ⟨"DecimationVertical", .int 1⟩,
             ⟨"OffsetX", .int 0⟩, ⟨"OffsetY", .int 0⟩,
             ⟨"Width", .int 640⟩, ⟨"Height", .int 1080⟩,
             ⟨"OffsetX", .int 8⟩, ⟨"OffsetY", .int 4⟩,
             ⟨"PixelFormat", .str "BayerRG8"⟩], none) :=
  (setImageControlFormats_writes exampleNodeMapEnv "BayerRG8" exampleConfig ⟨.Camera, 0, 0⟩
    1080 1920 rfl rfl (by decide) (by decide)).2.1 (fun _ => rfl)

/-! ## Shutdown path -/

/-- The outcome of `stop(); disconnect();` from any state: `stop` fails exactly
when it issues an end-acquisition that throws; otherwise `disconnect` fails
exactly when one of the calls it issues throws; the stream state is Stopped in
every case, and the handle is released when no error is raised. -/
theorem stopThenDisconnect_outcome (t : State) (endThrows : Bool) (env : DisconnectEnv) :
    (stopThenDisconnect endThrows env t).2
        = (if t.pCam_.isSome && t.captureRunning_ && endThrows
           then some .AcquisitionStopFailed
           else if (t.pCam_.isSome && (env.deInitThrows || env.removeThrows))
              || env.getCamerasThrows || env.appendThrows
           then some .DisconnectionFailed
           else none) ∧
      (stopThenDisconnect endThrows env t).1.captureRunning_ = false ∧
      ((stopThenDisconnect endThrows env t).2 = none →
        (stopThenDisconnect endThrows env t).1.pCam_ = none) := by
  obtain ⟨d, r, g, a⟩ := env
  cases hcam : t.pCam_ <;> cases hrun : t.captureRunning_ <;> cases endThrows <;>
    cases d <;> cases r <;> cases g <;> cases a <;>
    simp [stopThenDisconnect, stop, disconnect, disconnectRefresh, emit,
      setCaptureRunning, hcam, hrun]

/-- C10: from every driver state, and from the state left by any `grabImage`
call on it (failed or not), the sequence `stop(); disconnect();` raises no error
and ends with no handle held and the stream state Stopped, when the SDK calls
the sequence issues do not fail.  A grab changes nothing in this: with the same
SDK answers the sequence has the same outcome after the grab as before it,
namely AcquisitionStopFailed exactly when the end-acquisition it issues throws,
else DisconnectionFailed exactly when a teardown call it issues throws, else no
error; it always ends Stopped, and without error it ends with no handle. -/
theorem stopThenDisconnect_safe (s : State) (genv : GrabEnv) (frame_id : String)
    (image : Image) (endThrows : Bool) (env : DisconnectEnv) :
    ((stopThenDisconnect false ⟨false, false, false, false⟩ s).2 = none ∧
      (stopThenDisconnect false ⟨false, false, false, false⟩ s).1.pCam_ = none ∧
      (stopThenDisconnect false ⟨false, false, false, false⟩ s).1.captureRunning_ = false) ∧
    ((stopThenDisconnect false ⟨false, false, false, false⟩
          (grabImage genv frame_id image s).1).2 = none ∧
      (stopThenDisconnect false ⟨false, false, false, false⟩
          (grabImage genv frame_id image s).1).1.pCam_ = none ∧
      (stopThenDisconnect false ⟨false, false, false, false⟩
          (grabImage genv frame_id image s).1).1.captureRunning_ = false) ∧
    ((stopThenDisconnect endThrows env (grabImage genv frame_id image s).1).2
        = (stopThenDisconnect endThrows env s).2 ∧
      (stopThenDisconnect endThrows env s).2
        = (if s.pCam_.isSome && s.captureRunning_ && endThrows
           then some .AcquisitionStopFailed
           else if (s.pCam_.isSome && (env.deInitThrows || env.removeThrows))
              || env.getCamerasThrows || env.appendThrows
           then some .DisconnectionFailed
           else none) ∧
      (stopThenDisconnect endThrows env s).1.captureRunning_ = false ∧
      (stopThenDisconnect endThrows env (grabImage genv frame_id image s).1).1.captureRunning_
        = false ∧
      ((stopThenDisconnect endThrows env s).2 = none →
        (stopThenDisconnect endThrows env s).1.pCam_ = none ∧
        (stopThenDisconnect endThrows env (grabImage genv frame_id image s).1).1.pCam_
          = none)) := by
  have hg := grabImage_frame genv frame_id image s
  have hs := stopThenDisconnect_outcome s
  have ha := stopThenDisconnect_outcome (grabImage genv frame_id image s).1
  simp only [hg.1, hg.2] at ha
  have hsame : (stopThenDisconnect endThrows env (grabImage genv frame_id image s).1).2
      = (stopThenDisconnect endThrows env s).2 := by
    rw [(ha endThrows env).1, (hs endThrows env).1]
  have h0 := hs false ⟨false, false, false, false⟩
  have h1 := ha false ⟨false, false, false, false⟩
  simp only [Bool.and_false, Bool.or_false, Bool.false_eq_true, if_false] at h0 h1
  refine ⟨⟨h0.1, h0.2.2 h0.1, h0.2.1⟩, ⟨h1.1, h1.2.2 h1.1, h1.2.1⟩,
    hsame, (hs endThrows env).1, (hs endThrows env).2.1, (ha endThrows env).2.1, fun hok => ?_⟩
  exact ⟨(hs endThrows env).2.2 hok, (ha endThrows env).2.2 (hsame.trans hok)⟩

/-- Witness of C10: on the streaming driver reached by `connect` and `start`, a
grab whose frame retrieval throws fails with FrameRetrievalFailed; the
shutdown sequence then raises no error and ends with no handle and Stopped. -/
theorem stopThenDisconnect_safe_witness :
    (grabImage ⟨none, none⟩ "cam" exampleImage
        (start false (connect exampleConnectEnv (State.init 0)).1).1).2.2
      = some .FrameRetrievalFailed ∧
    (stopThenDisconnect false ⟨false, false, false, false⟩
        (grabImage ⟨none, none⟩ "cam" exampleImage
          (start false (connect exampleConnectEnv (State.init 0)).1).1).1).2 = none ∧
    (stopThenDisconnect false ⟨false, false, false, false⟩
        (grabImage ⟨none, none⟩ "cam" exampleImage
          (start false (connect exampleConnectEnv (State.init 0)).1).1).1).1.pCam_ = none ∧
    (stopThenDisconnect false ⟨false, false, false, false⟩
        (grabImage ⟨none, none⟩ "cam" exampleImage
          (start false (connect exampleConnectEnv (State.init 0)).1).1).1).1.captureRunning_
      = false :=
  ⟨by decide,
   (stopThenDisconnect_safe (start false (connect exampleConnectEnv (State.init 0)).1).1
      ⟨none, none⟩ "cam" exampleImage false ⟨false, false, false, false⟩).2.1⟩

end SpinnakerCamera
